import Mathlib

/-!
# Verification of the VtQube polling monitoring engine

Shallow embedding of `src/monitoring.py` (class `MonitoringThread`): the
per-tick fetch → compute → decide → emit cycle, the per-symbol signal state
(previous snapshots, TBQ/TSQ baselines, daily high/low maps, alert cooldowns,
stability tracking), and the market-hours / day-rollover gating of the `run`
loop.

Conventions of the embedding:
* Python `float` arithmetic is modelled over `ℚ` (the claims are about exact
  real arithmetic, and the concrete inputs used below are exactly
  representable in binary floating point).
* Quantities (`buy_quantity`, `sell_quantity`, `volume`) are `ℕ`: they come
  from `data.get('buy_quantity', 0)` etc., which always yields a nonnegative
  integer, so the `tbq is None` branches of the Python code are unreachable
  and the daily high/low dictionaries only ever hold plain integers.
* Python dicts keyed by symbol become functions `StockSymbol → Option α`
  (`None` = key absent); dict assignment becomes a pointwise update.
* Wall-clock instants (`datetime.datetime.now()`) are `ℚ` seconds; the
  time-of-day (`QTime.currentTime()`) is `ℚ` seconds since midnight; calendar
  dates (`datetime.date.today()`) are `ℤ` day ordinals.
* The Qt signals emitted by the thread become an explicit `Output` list.
-/

abbrev StockSymbol := String

/-- Embedding of the `VolumeData` dataclass (`src/volume_data.py`), restricted
to the fields the monitoring engine reads or writes.  Fields that are
`Optional` in Python but always set by `_fetch_and_process_live_data`
(tbq, tsq, the change percents, ratio, the day high/low snapshot values)
are stored unboxed. -/
structure VolumeData where
  symbol : StockSymbol
  volume : ℕ
  opening_volume : ℕ
  change_percent : ℚ
  price : ℚ
  tbq : ℕ
  tsq : ℕ
  tbq_change_percent : ℚ
  tsq_change_percent : ℚ
  ratio : ℚ
  alert_triggered : Bool
  is_tbq_baseline : Bool
  is_tsq_baseline : Bool
  day_high_tbq : ℕ
  day_low_tbq : ℕ
  day_high_tsq : ℕ
  day_low_tsq : ℕ
  deriving DecidableEq, Repr

/-- Embedding of `AlertConfig` (`src/config.py`), restricted to the fields the
monitoring thread reads.  `start_time`/`end_time` are the user-configured
market window; note the `run` loop of `monitoring.py` never consults them. -/
structure AlertConfig where
  tbq_tsq_threshold : ℚ
  stability_threshold : ℚ
  stability_duration : ℚ
  start_time : ℚ
  end_time : ℚ
  deriving DecidableEq, Repr

/-- The mutable state of a `MonitoringThread` instance (its `self.*` fields
that the polling loop reads or writes). -/
structure MonState where
  monitored_symbols : List StockSymbol
  previous_volume_data : StockSymbol → Option VolumeData
  tbq_baselines : StockSymbol → Option ℕ
  tsq_baselines : StockSymbol → Option ℕ
  symbol_daily_max_tbq : StockSymbol → Option ℕ
  symbol_daily_min_tbq : StockSymbol → Option ℕ
  symbol_daily_max_tsq : StockSymbol → Option ℕ
  symbol_daily_min_tsq : StockSymbol → Option ℕ
  last_reset_date : ℤ
  running : Bool
  paused : Bool
  alert_cooldown : String → Option ℚ
  stability_check_active : StockSymbol → Bool
  stability_start_times : StockSymbol → Option ℚ
  last_baseline_data : StockSymbol → Option VolumeData

/-- The `__init__` state of the thread: every per-symbol map empty,
`running = True`, `paused = False`, `last_reset_date = datetime.date.today()`. -/
def initial_state (symbols : List StockSymbol) (today : ℤ) : MonState where
  monitored_symbols := symbols
  previous_volume_data := fun _ => none
  tbq_baselines := fun _ => none
  tsq_baselines := fun _ => none
  symbol_daily_max_tbq := fun _ => none
  symbol_daily_min_tbq := fun _ => none
  symbol_daily_max_tsq := fun _ => none
  symbol_daily_min_tsq := fun _ => none
  last_reset_date := today
  running := true
  paused := false
  alert_cooldown := fun _ => none
  stability_check_active := fun _ => false
  stability_start_times := fun _ => none
  last_baseline_data := fun _ => none

/-- The dictionary key `f"{symbol}_{alert_type}"` used by the cooldown map. -/
def cooldownKey (symbol alert_type : String) : String :=
  symbol ++ "_" ++ alert_type

/-- `_check_alert_cooldown`: `True` (may fire) unless a previous firing of the
same `(symbol, alert_type)` key happened less than `cooldown_seconds` ago.
Every call site uses the default `cooldown_seconds = 300`. -/
def check_alert_cooldown (st : MonState) (now : ℚ) (symbol alert_type : String)
    (cooldown_seconds : ℚ) : Bool :=
  match st.alert_cooldown (cooldownKey symbol alert_type) with
  | some last_alert_time => !(decide (now - last_alert_time < cooldown_seconds))
  | none => true

/-- `_update_alert_cooldown`: record `now` as the last firing time of the
`(symbol, alert_type)` key. -/
def update_alert_cooldown (st : MonState) (now : ℚ) (symbol alert_type : String) :
    MonState :=
  { st with alert_cooldown := fun k =>
      if k = cooldownKey symbol alert_type then some now else st.alert_cooldown k }

/-- `self.stability_check_active[sym] = b` -/
def setActive (st : MonState) (sym : StockSymbol) (b : Bool) : MonState :=
  { st with stability_check_active := fun s =>
      if s = sym then b else st.stability_check_active s }

/-- `self.stability_start_times[sym] = t` -/
def setStart (st : MonState) (sym : StockSymbol) (t : ℚ) : MonState :=
  { st with stability_start_times := fun s =>
      if s = sym then some t else st.stability_start_times s }

/-- `self.stability_start_times.pop(sym, None)` -/
def popStart (st : MonState) (sym : StockSymbol) : MonState :=
  { st with stability_start_times := fun s =>
      if s = sym then none else st.stability_start_times s }

/-- `self.last_baseline_data[sym] = d` -/
def setLastBaseline (st : MonState) (sym : StockSymbol) (d : VolumeData) : MonState :=
  { st with last_baseline_data := fun s =>
      if s = sym then some d else st.last_baseline_data s }

/-- `_check_stability`: deviation of the current TBQ/TSQ from the last
stability-confirmed baseline, in percent.  With no recorded baseline the
symbol is never stable; a zero baseline side contributes deviation `0`
(the Python `if last_baseline.tbq else 0` truthiness guard). -/
def check_stability (st : MonState) (symbol : StockSymbol) (current_data : VolumeData)
    (stability_threshold : ℚ) : Bool :=
  match st.last_baseline_data symbol with
  | none => false
  | some last_baseline =>
    let tbq_deviation_percent : ℚ :=
      if last_baseline.tbq ≠ 0 then
        |(current_data.tbq : ℚ) - (last_baseline.tbq : ℚ)| / (last_baseline.tbq : ℚ) * 100
      else 0
    let tsq_deviation_percent : ℚ :=
      if last_baseline.tsq ≠ 0 then
        |(current_data.tsq : ℚ) - (last_baseline.tsq : ℚ)| / (last_baseline.tsq : ℚ) * 100
      else 0
    decide (tbq_deviation_percent ≤ stability_threshold ∧
            tsq_deviation_percent ≤ stability_threshold)

/-- The TBQ block of `_check_and_trigger_alerts` (lines 315-322): fire a
"TBQ Spike" when the tbq/tsq alert setting is enabled, the (fractional)
change percent multiplied by 100 meets the configured threshold, and the
`(symbol, "TBQ Spike")` cooldown has elapsed.  On firing: record the alert,
update the cooldown timestamp, activate the stability check, clear any
previous stability start time.  (`data.tbq_change_percent is not None` always
holds in the embedding.) -/
def tbq_spike_step (st : MonState) (cfg : AlertConfig) (trade_on_tbq_tsq_alert : Bool)
    (now : ℚ) (data : VolumeData) : List String × MonState :=
  if trade_on_tbq_tsq_alert = true ∧
      data.tbq_change_percent * 100 ≥ cfg.tbq_tsq_threshold then
    if check_alert_cooldown st now data.symbol "TBQ Spike" 300 then
      (["TBQ Spike"],
        popStart (setActive (update_alert_cooldown st now data.symbol "TBQ Spike")
          data.symbol true) data.symbol)
    else ([], st)
  else ([], st)

/-- The TSQ block of `_check_and_trigger_alerts` (lines 324-330), identical to
the TBQ block with the sell side and the "TSQ Spike" kind. -/
def tsq_spike_step (st : MonState) (cfg : AlertConfig) (trade_on_tbq_tsq_alert : Bool)
    (now : ℚ) (data : VolumeData) : List String × MonState :=
  if trade_on_tbq_tsq_alert = true ∧
      data.tsq_change_percent * 100 ≥ cfg.tbq_tsq_threshold then
    if check_alert_cooldown st now data.symbol "TSQ Spike" 300 then
      (["TSQ Spike"],
        popStart (setActive (update_alert_cooldown st now data.symbol "TSQ Spike")
          data.symbol true) data.symbol)
    else ([], st)
  else ([], st)

/-- The stability block of `_check_and_trigger_alerts` (lines 343-365): runs
only when a stability check is active for the symbol and no new TBQ/TSQ spike
was triggered this tick.  When `_check_stability` holds, record the entry time
on the first stable tick and, once the stable span reaches
`stability_duration`, mark the data as a new TBQ/TSQ baseline, promote it to
`last_baseline_data`, deactivate the check and clear the timer; when it does
not hold, clear the timer.  Returns the (possibly flag-mutated) data and the
updated state. -/
def stability_step (st : MonState) (cfg : AlertConfig) (now : ℚ) (data : VolumeData)
    (triggered_alerts : List String) : VolumeData × MonState :=
  if st.stability_check_active data.symbol = true ∧
      ¬("TBQ Spike" ∈ triggered_alerts ∨ "TSQ Spike" ∈ triggered_alerts) then
    if check_stability st data.symbol data cfg.stability_threshold then
      let st1 := if st.stability_start_times data.symbol = none
                 then setStart st data.symbol now else st
      -- `stability_start_times[data.symbol]` is present here: it was just set
      -- when it was absent, so the `getD` default is never used.
      let entered := (st1.stability_start_times data.symbol).getD now
      let time_in_stable_state := now - entered
      if time_in_stable_state ≥ cfg.stability_duration then
        let data1 := { data with is_tbq_baseline := true, is_tsq_baseline := true }
        (data1,
          popStart (setActive (setLastBaseline st1 data.symbol data1)
            data.symbol false) data.symbol)
      else (data, st1)
    else (data, popStart st data.symbol)
  else (data, st)

/-- Result of `_check_and_trigger_alerts`: the returned alert-kind list, the
(in-place mutated) `VolumeData`, and the thread state. -/
structure AlertOutcome where
  triggered_alerts : List String
  data : VolumeData
  state : MonState

/-- `_check_and_trigger_alerts` (lines 307-367): the TBQ spike block, then the
TSQ spike block (on the state left by the first), then the stability block.
`trade_on_tbq_tsq_alert` is the DB setting
`get_setting("trade_on_tbq_tsq_alert", 'True') == 'True'`, passed in as an
input of the tick. -/
def check_and_trigger_alerts (st : MonState) (cfg : AlertConfig)
    (trade_on_tbq_tsq_alert : Bool) (now : ℚ) (data : VolumeData) : AlertOutcome :=
  let r1 := tbq_spike_step st cfg trade_on_tbq_tsq_alert now data
  let r2 := tsq_spike_step r1.2 cfg trade_on_tbq_tsq_alert now data
  let triggered_alerts := r1.1 ++ r2.1
  let r3 := stability_step r2.2 cfg now data triggered_alerts
  { triggered_alerts := triggered_alerts, data := r3.1, state := r3.2 }

/-- The fields of one `kite.quote` response that
`_fetch_and_process_live_data` extracts (with their `.get(..., 0)` defaults
already applied, so every field is present). -/
structure Quote where
  buy_quantity : ℕ
  sell_quantity : ℕ
  volume : ℕ
  last_price : ℚ
  open_price : ℚ
  high_price : ℚ
  low_price : ℚ
  close_price : ℚ
  deriving DecidableEq, Repr

/-- What one successful `_fetch_and_process_live_data` call produces: the
assembled `VolumeData` (after the in-place mutations of the alert check and
the `alert_triggered` flag), the alert kinds returned by
`_check_and_trigger_alerts`, the derived flag, and the updated thread state. -/
structure ProcessResult where
  volume_data : VolumeData
  triggered_alert_types : List String
  alert_triggered_flag : Bool
  state : MonState

/-- `_fetch_and_process_live_data` (lines 166-301) on a successfully fetched
quote: compute opening volume, the volume / TBQ / TSQ change percents (the
TBQ/TSQ percents against the *previous tick's* quantities, with the zero
guard `1.0 if current > 0 else 0.0`), the buy/sell ratio, seed the TBQ/TSQ
baselines on first observation, run the daily high/low update block, assemble
the `VolumeData`, run `_check_and_trigger_alerts`, set `alert_triggered`, and
store the result as the symbol's previous data. -/
def fetch_and_process_live_data (st : MonState) (cfg : AlertConfig)
    (trade_on_tbq_tsq_alert : Bool) (now : ℚ) (symbol : StockSymbol) (q : Quote) :
    ProcessResult :=
  let tbq := q.buy_quantity
  let tsq := q.sell_quantity
  let current_volume := q.volume
  -- opening volume: first observation uses the current volume
  -- (`opening_volume` is never `None` in a stored snapshot, so the Python
  -- `or ... is None` disjunct never fires)
  let opening_volume : ℕ :=
    match st.previous_volume_data symbol with
    | none => current_volume
    | some prev => prev.opening_volume
  let volume_change_percent : ℚ :=
    if opening_volume ≠ 0 then
      ((current_volume : ℚ) - (opening_volume : ℚ)) / (opening_volume : ℚ)
    else 0
  -- TBQ/TSQ change percents against the previous tick's snapshot
  let prev_tbq : ℕ :=
    match st.previous_volume_data symbol with
    | some prev_tbq_data => prev_tbq_data.tbq
    | none => 0
  let prev_tsq : ℕ :=
    match st.previous_volume_data symbol with
    | some prev_tbq_data => prev_tbq_data.tsq
    | none => 0
  let tbq_change_percent : ℚ :=
    if prev_tbq ≠ 0 then ((tbq : ℚ) - (prev_tbq : ℚ)) / (prev_tbq : ℚ)
    else if tbq > 0 then 1 else 0
  let tsq_change_percent : ℚ :=
    if prev_tsq ≠ 0 then ((tsq : ℚ) - (prev_tsq : ℚ)) / (prev_tsq : ℚ)
    else if tsq > 0 then 1 else 0
  let ratio : ℚ :=
    if tsq ≠ 0 then (tbq : ℚ) / (tsq : ℚ)
    else if tbq ≠ 0 then (tbq : ℚ) / 1 else 0
  -- seed TBQ/TSQ baselines on first observation
  let is_tbq_baseline_flag := st.tbq_baselines symbol = none
  let is_tsq_baseline_flag := st.tsq_baselines symbol = none
  let st1 :=
    if st.tbq_baselines symbol = none then
      { st with tbq_baselines := fun s =>
          if s = symbol then some tbq else st.tbq_baselines s }
    else st
  let st2 :=
    if st1.tsq_baselines symbol = none then
      { st1 with tsq_baselines := fun s =>
          if s = symbol then some tsq else st1.tsq_baselines s }
    else st1
  -- daily high/low update block for TBQ; `tbq` is never `None` here, and the
  -- stored dict values are plain integers, so only the strict comparisons of
  -- the Python conditions remain
  let current_day_high_tbq := (st2.symbol_daily_max_tbq symbol).getD tbq
  let st3 :=
    if tbq > current_day_high_tbq then
      { st2 with symbol_daily_max_tbq := fun s =>
          if s = symbol then some tbq else st2.symbol_daily_max_tbq s }
    else st2
  let current_day_high_tbq := if tbq > current_day_high_tbq then tbq else current_day_high_tbq
  let current_day_low_tbq := (st3.symbol_daily_min_tbq symbol).getD tbq
  let st4 :=
    if tbq < current_day_low_tbq then
      { st3 with symbol_daily_min_tbq := fun s =>
          if s = symbol then some tbq else st3.symbol_daily_min_tbq s }
    else st3
  let current_day_low_tbq := if tbq < current_day_low_tbq then tbq else current_day_low_tbq
  -- daily high/low update block for TSQ
  let current_day_high_tsq := (st4.symbol_daily_max_tsq symbol).getD tsq
  let st5 :=
    if tsq > current_day_high_tsq then
      { st4 with symbol_daily_max_tsq := fun s =>
          if s = symbol then some tsq else st4.symbol_daily_max_tsq s }
    else st4
  let current_day_high_tsq := if tsq > current_day_high_tsq then tsq else current_day_high_tsq
  let current_day_low_tsq := (st5.symbol_daily_min_tsq symbol).getD tsq
  let st6 :=
    if tsq < current_day_low_tsq then
      { st5 with symbol_daily_min_tsq := fun s =>
          if s = symbol then some tsq else st5.symbol_daily_min_tsq s }
    else st5
  let current_day_low_tsq := if tsq < current_day_low_tsq then tsq else current_day_low_tsq
  let volume_data : VolumeData :=
    { symbol := symbol
      volume := current_volume
      opening_volume := opening_volume
      change_percent := volume_change_percent
      price := q.last_price
      tbq := tbq
      tsq := tsq
      tbq_change_percent := tbq_change_percent
      tsq_change_percent := tsq_change_percent
      ratio := ratio
      alert_triggered := false
      is_tbq_baseline := decide is_tbq_baseline_flag
      is_tsq_baseline := decide is_tsq_baseline_flag
      day_high_tbq := current_day_high_tbq
      day_low_tbq := current_day_low_tbq
      day_high_tsq := current_day_high_tsq
      day_low_tsq := current_day_low_tsq }
  let outcome := check_and_trigger_alerts st6 cfg trade_on_tbq_tsq_alert now volume_data
  let alert_triggered_flag := decide (outcome.triggered_alerts ≠ [])
  let volume_data1 := { outcome.data with alert_triggered := alert_triggered_flag }
  let st7 := { outcome.state with
    previous_volume_data := fun s =>
      if s = symbol then some volume_data1 else outcome.state.previous_volume_data s }
  { volume_data := volume_data1
    triggered_alert_types := outcome.triggered_alerts
    alert_triggered_flag := alert_triggered_flag
    state := st7 }

/-- The Qt signals the monitoring thread emits, plus its `time.sleep` calls,
in program order. -/
inductive Output where
  | status_changed (msg : String)
  | volume_update (d : VolumeData)
  | alert_sig (symbol : StockSymbol) (alert_type_string : String)
      (primary_alert_category : String) (d : VolumeData)
  | error_occurred (msg : String)
  | sleep (seconds : ℚ)
  deriving DecidableEq, Repr

/-- The hard-coded market window of `run`: `datetime.time(9, 0, 0)`, in
seconds since midnight. -/
def market_start_time : ℚ := 9 * 3600

/-- The hard-coded market window of `run`: `datetime.time(15, 30, 0)`, in
seconds since midnight. -/
def market_end_time : ℚ := 15 * 3600 + 30 * 60

/-- The day-rollover block of `run` (lines 90-97): on the first tick whose
date differs from `last_reset_date`, clear the four daily high/low maps and
store the new date. -/
def day_rollover (st : MonState) (current_date : ℤ) : MonState :=
  if current_date ≠ st.last_reset_date then
    { st with
      symbol_daily_max_tbq := fun _ => none
      symbol_daily_min_tbq := fun _ => none
      symbol_daily_max_tsq := fun _ => none
      symbol_daily_min_tsq := fun _ => none
      last_reset_date := current_date }
  else st

/-- One symbol of the per-tick `for symbol in self.monitored_symbols` loop:
either the quote fetch succeeds and the data is processed (emitting the
volume update and, when alerts fired, the combined alert signal), or an
exception is caught and reported through `error_occurred` with the state
untouched (`kite.quote` is the first effect of
`_fetch_and_process_live_data`, so a failed fetch mutates nothing). -/
def process_symbol (st : MonState) (cfg : AlertConfig) (trade_on_tbq_tsq_alert : Bool)
    (now : ℚ) (symbol : StockSymbol) (quote : Except String Quote) :
    MonState × List Output :=
  match quote with
  | Except.error e =>
      (st, [Output.error_occurred ("Error fetching data for " ++ symbol ++ ": " ++ e)])
  | Except.ok q =>
      let r := fetch_and_process_live_data st cfg trade_on_tbq_tsq_alert now symbol q
      (r.state,
        [Output.volume_update r.volume_data] ++
        (if r.alert_triggered_flag then
          [Output.alert_sig symbol (String.intercalate ", " r.triggered_alert_types)
            (r.triggered_alert_types.headD "Alert") r.volume_data]
         else []))

/-- The whole symbol loop of one tick, folding the state through the list of
monitored symbols and concatenating the emitted outputs. -/
def process_symbols (cfg : AlertConfig) (trade_on_tbq_tsq_alert : Bool) (now : ℚ)
    (quotes : StockSymbol → Except String Quote) :
    MonState → List StockSymbol → MonState × List Output
  | st, [] => (st, [])
  | st, symbol :: rest =>
      let r1 := process_symbol st cfg trade_on_tbq_tsq_alert now symbol (quotes symbol)
      let r2 := process_symbols cfg trade_on_tbq_tsq_alert now quotes r1.1 rest
      (r2.1, r1.2 ++ r2.2)

/-- The environment of one iteration of the `while self.running` loop: the
current time of day (`QTime.currentTime()`), the wall clock
(`datetime.datetime.now()`), today's date (`datetime.date.today()`), the
broker responses for this tick, and the `trade_on_tbq_tsq_alert` DB setting. -/
structure TickInput where
  current_time : ℚ
  now : ℚ
  current_date : ℤ
  quotes : StockSymbol → Except String Quote
  trade_on_tbq_tsq_alert : Bool

/-- One iteration of the `run` loop body (lines 77-160): when paused, just a
status message and a short sleep; otherwise apply the day rollover, gate on
the hard-coded 09:00:00-15:30:00 window (the configured
`start_time`/`end_time` are never read), and when open run the symbol loop
followed by the active-status message and the 5 second sleep.  `running` is
never written by an iteration — only `stop_monitoring` clears it. -/
def run_iteration (st : MonState) (cfg : AlertConfig) (input : TickInput) :
    MonState × List Output :=
  if st.paused = true then
    (st, [Output.status_changed "Monitoring paused. Resume to continue.",
          Output.sleep 1])
  else
    let is_market_open :=
      market_start_time ≤ input.current_time ∧ input.current_time ≤ market_end_time
    let st1 := day_rollover st input.current_date
    if is_market_open then
      let r := process_symbols cfg input.trade_on_tbq_tsq_alert input.now input.quotes
        st1 st1.monitored_symbols
      (r.1, r.2 ++ [Output.status_changed "Monitoring active. Next update in 5 seconds.",
                    Output.sleep 5])
    else
      (st1, [Output.status_changed "Market closed. Waiting until 09:00.",
             Output.sleep 60])

/-- A finite run of the monitoring loop: fold `run_iteration` over a list of
tick environments, discarding outputs. -/
def run_ticks (cfg : AlertConfig) : MonState → List TickInput → MonState
  | st, [] => st
  | st, input :: rest => run_ticks cfg (run_iteration st cfg input).1 rest

/-- The `prev_tbq` local of `_fetch_and_process_live_data` (lines 200-201):
the TBQ stored for the symbol by the previous tick, `0` when the symbol has
no previous snapshot. -/
def prev_tick_tbq (st : MonState) (symbol : StockSymbol) : ℕ :=
  match st.previous_volume_data symbol with
  | some prev_tbq_data => prev_tbq_data.tbq
  | none => 0

/-- The `prev_tsq` local of `_fetch_and_process_live_data` (line 202). -/
def prev_tick_tsq (st : MonState) (symbol : StockSymbol) : ℕ :=
  match st.previous_volume_data symbol with
  | some prev_tbq_data => prev_tbq_data.tsq
  | none => 0

/-! ## Concrete scenarios

A single monitored symbol `"X"`, a 5 percent spike threshold (the threshold
field is compared against `change * 100`), a 10 percent stability threshold
and a zero stability duration, polled at wall-clock seconds 0, 400 and 800. -/

def cfg5 : AlertConfig :=
  { tbq_tsq_threshold := 5, stability_threshold := 10, stability_duration := 0,
    start_time := 9 * 3600, end_time := 15 * 3600 + 30 * 60 }

/-- A freshly constructed thread watching one symbol. -/
def st0 : MonState := initial_state ["X"] 0

/-- A quote with the given total buy quantity and a fixed sell quantity 100. -/
def qX (n : ℕ) : Quote :=
  { buy_quantity := n, sell_quantity := 100, volume := 1000, last_price := 10,
    open_price := 10, high_price := 11, low_price := 9, close_price := 10 }

/-- First tick: first observation of `"X"`, TBQ 100. -/
def tickA1 : ProcessResult := fetch_and_process_live_data st0 cfg5 true 0 "X" (qX 100)

/-- Second tick, 400 s later (cooldown elapsed): TBQ 150. -/
def tickA2 : ProcessResult :=
  fetch_and_process_live_data tickA1.state cfg5 true 400 "X" (qX 150)

/-- Third tick, another 400 s later: TBQ unchanged at 150. -/
def tickA3 : ProcessResult :=
  fetch_and_process_live_data tickA2.state cfg5 true 800 "X" (qX 150)

/-- A run where the buy quantity falls: TBQ 100 then 50. -/
def tickB1 : ProcessResult := fetch_and_process_live_data st0 cfg5 true 0 "X" (qX 100)

def tickB2 : ProcessResult :=
  fetch_and_process_live_data tickB1.state cfg5 true 10 "X" (qX 50)

/-- A configuration whose threshold is the fraction 0.05 (5 percent in the
convention the specification fixes). -/
def cfgFrac : AlertConfig :=
  { tbq_tsq_threshold := 1/20, stability_threshold := 10, stability_duration := 0,
    start_time := 9 * 3600, end_time := 15 * 3600 + 30 * 60 }

/-- A snapshot of `"X"` whose buy side just dropped by 10 percent. -/
def dC : VolumeData :=
  { symbol := "X", volume := 1000, opening_volume := 1000, change_percent := 0,
    price := 10, tbq := 90, tsq := 100, tbq_change_percent := -1/10,
    tsq_change_percent := 0, ratio := 9/10, alert_triggered := false,
    is_tbq_baseline := false, is_tsq_baseline := false, day_high_tbq := 90,
    day_low_tbq := 90, day_high_tsq := 100, day_low_tsq := 100 }

/-- A snapshot of `"X"` whose buy side just rose 50 percent. -/
def dF : VolumeData :=
  { dC with tbq := 150, tbq_change_percent := 1/2 }

/-- A broker that fails for symbol `"B"` and answers everywhere else. -/
def quotesW : StockSymbol → Except String Quote :=
  fun s => if s = "B" then Except.error "boom" else Except.ok (qX 100)

/-- A stability baseline snapshot whose buy side is zero. -/
def dB0 : VolumeData :=
  { symbol := "X", volume := 1000, opening_volume := 1000, change_percent := 0,
    price := 10, tbq := 0, tsq := 100, tbq_change_percent := 0,
    tsq_change_percent := 0, ratio := 0, alert_triggered := false,
    is_tbq_baseline := false, is_tsq_baseline := false, day_high_tbq := 0,
    day_low_tbq := 0, day_high_tsq := 100, day_low_tsq := 100 }

/-- `st0` with `dB0` recorded as the stability baseline of `"X"`. -/
def stB : MonState := setLastBaseline st0 "X" dB0

/-- A stability baseline snapshot whose sell side is zero. -/
def dB1 : VolumeData :=
  { dB0 with tbq := 100, tsq := 0 }

/-- `st0` with `dB1` recorded as the stability baseline of `"X"`. -/
def stB1 : MonState := setLastBaseline st0 "X" dB1

/-- A tick environment whose time of day (16:40) is outside the hard-coded
market window and whose date differs from the stored reset date. -/
def inputClosed : TickInput :=
  { current_time := 60000, now := 60000, current_date := 1, quotes := quotesW,
    trade_on_tbq_tsq_alert := true }

/-! ## Helper lemmas -/

lemma cooldownKey_inj_right (s a b : String) (h : cooldownKey s a = cooldownKey s b) :
    a = b := by
  unfold cooldownKey at h
  have h2 : (s ++ "_").data ++ a.data = (s ++ "_").data ++ b.data := by
    simpa [String.data_append, List.append_assoc] using congrArg String.data h
  exact String.ext (List.append_cancel_left h2)

lemma cooldownKey_tsq_ne_tbq (s : String) :
    cooldownKey s "TSQ Spike" ≠ cooldownKey s "TBQ Spike" := by
  intro h
  have := cooldownKey_inj_right s "TSQ Spike" "TBQ Spike" h
  simp at this

/-- The TBQ spike block touches only the cooldown map and the stability
bookkeeping of the state. -/
lemma tbq_spike_step_state_frame (st : MonState) (cfg : AlertConfig) (t : Bool)
    (now : ℚ) (d : VolumeData) :
    (tbq_spike_step st cfg t now d).2.monitored_symbols = st.monitored_symbols ∧
    (tbq_spike_step st cfg t now d).2.previous_volume_data = st.previous_volume_data ∧
    (tbq_spike_step st cfg t now d).2.tbq_baselines = st.tbq_baselines ∧
    (tbq_spike_step st cfg t now d).2.tsq_baselines = st.tsq_baselines ∧
    (tbq_spike_step st cfg t now d).2.symbol_daily_max_tbq = st.symbol_daily_max_tbq ∧
    (tbq_spike_step st cfg t now d).2.symbol_daily_min_tbq = st.symbol_daily_min_tbq ∧
    (tbq_spike_step st cfg t now d).2.symbol_daily_max_tsq = st.symbol_daily_max_tsq ∧
    (tbq_spike_step st cfg t now d).2.symbol_daily_min_tsq = st.symbol_daily_min_tsq ∧
    (tbq_spike_step st cfg t now d).2.last_reset_date = st.last_reset_date ∧
    (tbq_spike_step st cfg t now d).2.running = st.running ∧
    (tbq_spike_step st cfg t now d).2.paused = st.paused ∧
    (tbq_spike_step st cfg t now d).2.last_baseline_data = st.last_baseline_data := by
  unfold tbq_spike_step update_alert_cooldown setActive popStart
  split_ifs <;> simp

/-- The TSQ spike block touches only the cooldown map and the stability
bookkeeping of the state. -/
lemma tsq_spike_step_state_frame (st : MonState) (cfg : AlertConfig) (t : Bool)
    (now : ℚ) (d : VolumeData) :
    (tsq_spike_step st cfg t now d).2.monitored_symbols = st.monitored_symbols ∧
    (tsq_spike_step st cfg t now d).2.previous_volume_data = st.previous_volume_data ∧
    (tsq_spike_step st cfg t now d).2.tbq_baselines = st.tbq_baselines ∧
    (tsq_spike_step st cfg t now d).2.tsq_baselines = st.tsq_baselines ∧
    (tsq_spike_step st cfg t now d).2.symbol_daily_max_tbq = st.symbol_daily_max_tbq ∧
    (tsq_spike_step st cfg t now d).2.symbol_daily_min_tbq = st.symbol_daily_min_tbq ∧
    (tsq_spike_step st cfg t now d).2.symbol_daily_max_tsq = st.symbol_daily_max_tsq ∧
    (tsq_spike_step st cfg t now d).2.symbol_daily_min_tsq = st.symbol_daily_min_tsq ∧
    (tsq_spike_step st cfg t now d).2.last_reset_date = st.last_reset_date ∧
    (tsq_spike_step st cfg t now d).2.running = st.running ∧
    (tsq_spike_step st cfg t now d).2.paused = st.paused ∧
    (tsq_spike_step st cfg t now d).2.last_baseline_data = st.last_baseline_data := by
  unfold tsq_spike_step update_alert_cooldown setActive popStart
  split_ifs <;> simp

/-- The stability block touches only the stability bookkeeping and (in its
promotion branch) `last_baseline_data`. -/
lemma stability_step_state_frame (st : MonState) (cfg : AlertConfig)
    (now : ℚ) (d : VolumeData) (ta : List String) :
    (stability_step st cfg now d ta).2.monitored_symbols = st.monitored_symbols ∧
    (stability_step st cfg now d ta).2.previous_volume_data = st.previous_volume_data ∧
    (stability_step st cfg now d ta).2.tbq_baselines = st.tbq_baselines ∧
    (stability_step st cfg now d ta).2.tsq_baselines = st.tsq_baselines ∧
    (stability_step st cfg now d ta).2.symbol_daily_max_tbq = st.symbol_daily_max_tbq ∧
    (stability_step st cfg now d ta).2.symbol_daily_min_tbq = st.symbol_daily_min_tbq ∧
    (stability_step st cfg now d ta).2.symbol_daily_max_tsq = st.symbol_daily_max_tsq ∧
    (stability_step st cfg now d ta).2.symbol_daily_min_tsq = st.symbol_daily_min_tsq ∧
    (stability_step st cfg now d ta).2.last_reset_date = st.last_reset_date ∧
    (stability_step st cfg now d ta).2.running = st.running ∧
    (stability_step st cfg now d ta).2.paused = st.paused ∧
    (stability_step st cfg now d ta).2.alert_cooldown = st.alert_cooldown := by
  unfold stability_step setStart setActive popStart setLastBaseline
  split_ifs <;> simp <;> (try (split_ifs <;> simp))

/-- The data returned by the stability block is the input data, with the two
baseline flags forced on in the promotion branch. -/
lemma stability_step_data (st : MonState) (cfg : AlertConfig)
    (now : ℚ) (d : VolumeData) (ta : List String) :
    (stability_step st cfg now d ta).1 = d ∨
    (stability_step st cfg now d ta).1 =
      { d with is_tbq_baseline := true, is_tsq_baseline := true } := by
  unfold stability_step
  split_ifs <;> simp <;> (try (split_ifs <;> simp))

/-- `_check_and_trigger_alerts` touches only the cooldown map, the stability
bookkeeping and `last_baseline_data`; every other state field is preserved. -/
lemma check_and_trigger_state_frame (st : MonState) (cfg : AlertConfig) (t : Bool)
    (now : ℚ) (d : VolumeData) :
    (check_and_trigger_alerts st cfg t now d).state.monitored_symbols = st.monitored_symbols ∧
    (check_and_trigger_alerts st cfg t now d).state.previous_volume_data = st.previous_volume_data ∧
    (check_and_trigger_alerts st cfg t now d).state.tbq_baselines = st.tbq_baselines ∧
    (check_and_trigger_alerts st cfg t now d).state.tsq_baselines = st.tsq_baselines ∧
    (check_and_trigger_alerts st cfg t now d).state.symbol_daily_max_tbq = st.symbol_daily_max_tbq ∧
    (check_and_trigger_alerts st cfg t now d).state.symbol_daily_min_tbq = st.symbol_daily_min_tbq ∧
    (check_and_trigger_alerts st cfg t now d).state.symbol_daily_max_tsq = st.symbol_daily_max_tsq ∧
    (check_and_trigger_alerts st cfg t now d).state.symbol_daily_min_tsq = st.symbol_daily_min_tsq ∧
    (check_and_trigger_alerts st cfg t now d).state.last_reset_date = st.last_reset_date ∧
    (check_and_trigger_alerts st cfg t now d).state.running = st.running ∧
    (check_and_trigger_alerts st cfg t now d).state.paused = st.paused := by
  obtain ⟨b1, b2, b3, b4, b5, b6, b7, b8, b9, b10, b11, _⟩ :=
    tbq_spike_step_state_frame st cfg t now d
  obtain ⟨c1, c2, c3, c4, c5, c6, c7, c8, c9, c10, c11, _⟩ :=
    tsq_spike_step_state_frame (tbq_spike_step st cfg t now d).2 cfg t now d
  obtain ⟨e1, e2, e3, e4, e5, e6, e7, e8, e9, e10, e11, _⟩ :=
    stability_step_state_frame
      (tsq_spike_step (tbq_spike_step st cfg t now d).2 cfg t now d).2 cfg now d
      ((tbq_spike_step st cfg t now d).1 ++
        (tsq_spike_step (tbq_spike_step st cfg t now d).2 cfg t now d).1)
  unfold check_and_trigger_alerts
  exact ⟨e1.trans (c1.trans b1), e2.trans (c2.trans b2), e3.trans (c3.trans b3),
    e4.trans (c4.trans b4), e5.trans (c5.trans b5), e6.trans (c6.trans b6),
    e7.trans (c7.trans b7), e8.trans (c8.trans b8), e9.trans (c9.trans b9),
    e10.trans (c10.trans b10), e11.trans (c11.trans b11)⟩

@[simp] lemma cad_state_tbq_baselines (st : MonState) (cfg : AlertConfig) (t : Bool)
    (now : ℚ) (d : VolumeData) :
    (check_and_trigger_alerts st cfg t now d).state.tbq_baselines = st.tbq_baselines :=
  (check_and_trigger_state_frame st cfg t now d).2.2.1

@[simp] lemma cad_state_tsq_baselines (st : MonState) (cfg : AlertConfig) (t : Bool)
    (now : ℚ) (d : VolumeData) :
    (check_and_trigger_alerts st cfg t now d).state.tsq_baselines = st.tsq_baselines :=
  (check_and_trigger_state_frame st cfg t now d).2.2.2.1

@[simp] lemma cad_state_daily_max_tbq (st : MonState) (cfg : AlertConfig) (t : Bool)
    (now : ℚ) (d : VolumeData) :
    (check_and_trigger_alerts st cfg t now d).state.symbol_daily_max_tbq =
      st.symbol_daily_max_tbq :=
  (check_and_trigger_state_frame st cfg t now d).2.2.2.2.1

@[simp] lemma cad_state_daily_min_tbq (st : MonState) (cfg : AlertConfig) (t : Bool)
    (now : ℚ) (d : VolumeData) :
    (check_and_trigger_alerts st cfg t now d).state.symbol_daily_min_tbq =
      st.symbol_daily_min_tbq :=
  (check_and_trigger_state_frame st cfg t now d).2.2.2.2.2.1

@[simp] lemma cad_state_daily_max_tsq (st : MonState) (cfg : AlertConfig) (t : Bool)
    (now : ℚ) (d : VolumeData) :
    (check_and_trigger_alerts st cfg t now d).state.symbol_daily_max_tsq =
      st.symbol_daily_max_tsq :=
  (check_and_trigger_state_frame st cfg t now d).2.2.2.2.2.2.1

@[simp] lemma cad_state_daily_min_tsq (st : MonState) (cfg : AlertConfig) (t : Bool)
    (now : ℚ) (d : VolumeData) :
    (check_and_trigger_alerts st cfg t now d).state.symbol_daily_min_tsq =
      st.symbol_daily_min_tsq :=
  (check_and_trigger_state_frame st cfg t now d).2.2.2.2.2.2.2.1

@[simp] lemma cad_state_last_reset_date (st : MonState) (cfg : AlertConfig) (t : Bool)
    (now : ℚ) (d : VolumeData) :
    (check_and_trigger_alerts st cfg t now d).state.last_reset_date = st.last_reset_date :=
  (check_and_trigger_state_frame st cfg t now d).2.2.2.2.2.2.2.2.1

@[simp] lemma cad_state_running (st : MonState) (cfg : AlertConfig) (t : Bool)
    (now : ℚ) (d : VolumeData) :
    (check_and_trigger_alerts st cfg t now d).state.running = st.running :=
  (check_and_trigger_state_frame st cfg t now d).2.2.2.2.2.2.2.2.2.1

@[simp] lemma cad_state_paused (st : MonState) (cfg : AlertConfig) (t : Bool)
    (now : ℚ) (d : VolumeData) :
    (check_and_trigger_alerts st cfg t now d).state.paused = st.paused :=
  (check_and_trigger_state_frame st cfg t now d).2.2.2.2.2.2.2.2.2.2

@[simp] lemma cad_state_monitored (st : MonState) (cfg : AlertConfig) (t : Bool)
    (now : ℚ) (d : VolumeData) :
    (check_and_trigger_alerts st cfg t now d).state.monitored_symbols =
      st.monitored_symbols :=
  (check_and_trigger_state_frame st cfg t now d).1

@[simp] lemma cad_state_previous (st : MonState) (cfg : AlertConfig) (t : Bool)
    (now : ℚ) (d : VolumeData) :
    (check_and_trigger_alerts st cfg t now d).state.previous_volume_data =
      st.previous_volume_data :=
  (check_and_trigger_state_frame st cfg t now d).2.1

/-- `_check_and_trigger_alerts` returns the snapshot it was given, except that
the stability-promotion branch forces the two baseline flags on. -/
lemma cad_data_eq (st : MonState) (cfg : AlertConfig) (t : Bool)
    (now : ℚ) (d : VolumeData) :
    (check_and_trigger_alerts st cfg t now d).data = d ∨
    (check_and_trigger_alerts st cfg t now d).data =
      { d with is_tbq_baseline := true, is_tsq_baseline := true } := by
  unfold check_and_trigger_alerts
  exact stability_step_data _ _ _ _ _

@[simp] lemma cad_data_symbol (st : MonState) (cfg : AlertConfig) (t : Bool)
    (now : ℚ) (d : VolumeData) :
    (check_and_trigger_alerts st cfg t now d).data.symbol = d.symbol := by
  rcases cad_data_eq st cfg t now d with h | h <;> rw [h]

@[simp] lemma cad_data_tbq (st : MonState) (cfg : AlertConfig) (t : Bool)
    (now : ℚ) (d : VolumeData) :
    (check_and_trigger_alerts st cfg t now d).data.tbq = d.tbq := by
  rcases cad_data_eq st cfg t now d with h | h <;> rw [h]

@[simp] lemma cad_data_tsq (st : MonState) (cfg : AlertConfig) (t : Bool)
    (now : ℚ) (d : VolumeData) :
    (check_and_trigger_alerts st cfg t now d).data.tsq = d.tsq := by
  rcases cad_data_eq st cfg t now d with h | h <;> rw [h]

@[simp] lemma cad_data_tbq_change_percent (st : MonState) (cfg : AlertConfig) (t : Bool)
    (now : ℚ) (d : VolumeData) :
    (check_and_trigger_alerts st cfg t now d).data.tbq_change_percent =
      d.tbq_change_percent := by
  rcases cad_data_eq st cfg t now d with h | h <;> rw [h]

@[simp] lemma cad_data_tsq_change_percent (st : MonState) (cfg : AlertConfig) (t : Bool)
    (now : ℚ) (d : VolumeData) :
    (check_and_trigger_alerts st cfg t now d).data.tsq_change_percent =
      d.tsq_change_percent := by
  rcases cad_data_eq st cfg t now d with h | h <;> rw [h]

@[simp] lemma cad_data_day_high_tbq (st : MonState) (cfg : AlertConfig) (t : Bool)
    (now : ℚ) (d : VolumeData) :
    (check_and_trigger_alerts st cfg t now d).data.day_high_tbq = d.day_high_tbq := by
  rcases cad_data_eq st cfg t now d with h | h <;> rw [h]

@[simp] lemma cad_data_day_low_tbq (st : MonState) (cfg : AlertConfig) (t : Bool)
    (now : ℚ) (d : VolumeData) :
    (check_and_trigger_alerts st cfg t now d).data.day_low_tbq = d.day_low_tbq := by
  rcases cad_data_eq st cfg t now d with h | h <;> rw [h]

@[simp] lemma cad_data_day_high_tsq (st : MonState) (cfg : AlertConfig) (t : Bool)
    (now : ℚ) (d : VolumeData) :
    (check_and_trigger_alerts st cfg t now d).data.day_high_tsq = d.day_high_tsq := by
  rcases cad_data_eq st cfg t now d with h | h <;> rw [h]

@[simp] lemma cad_data_day_low_tsq (st : MonState) (cfg : AlertConfig) (t : Bool)
    (now : ℚ) (d : VolumeData) :
    (check_and_trigger_alerts st cfg t now d).data.day_low_tsq = d.day_low_tsq := by
  rcases cad_data_eq st cfg t now d with h | h <;> rw [h]

lemma tbq_spike_step_fst (st : MonState) (cfg : AlertConfig) (t : Bool)
    (now : ℚ) (d : VolumeData) :
    (tbq_spike_step st cfg t now d).1 =
      if t = true ∧ d.tbq_change_percent * 100 ≥ cfg.tbq_tsq_threshold ∧
          check_alert_cooldown st now d.symbol "TBQ Spike" 300 = true
      then ["TBQ Spike"] else [] := by
  unfold tbq_spike_step
  split_ifs <;> simp_all

lemma tsq_spike_step_fst (st : MonState) (cfg : AlertConfig) (t : Bool)
    (now : ℚ) (d : VolumeData) :
    (tsq_spike_step st cfg t now d).1 =
      if t = true ∧ d.tsq_change_percent * 100 ≥ cfg.tbq_tsq_threshold ∧
          check_alert_cooldown st now d.symbol "TSQ Spike" 300 = true
      then ["TSQ Spike"] else [] := by
  unfold tsq_spike_step
  split_ifs <;> simp_all

lemma tbq_spike_step_cooldown_ne (st : MonState) (cfg : AlertConfig) (t : Bool)
    (now : ℚ) (d : VolumeData) (k : String)
    (hk : k ≠ cooldownKey d.symbol "TBQ Spike") :
    (tbq_spike_step st cfg t now d).2.alert_cooldown k = st.alert_cooldown k := by
  unfold tbq_spike_step update_alert_cooldown setActive popStart
  split_ifs <;> simp [hk]

lemma tsq_spike_step_cooldown_ne (st : MonState) (cfg : AlertConfig) (t : Bool)
    (now : ℚ) (d : VolumeData) (k : String)
    (hk : k ≠ cooldownKey d.symbol "TSQ Spike") :
    (tsq_spike_step st cfg t now d).2.alert_cooldown k = st.alert_cooldown k := by
  unfold tsq_spike_step update_alert_cooldown setActive popStart
  split_ifs <;> simp [hk]

lemma check_alert_cooldown_congr (st st' : MonState) (now : ℚ) (sym a : String)
    (c : ℚ) (h : st'.alert_cooldown (cooldownKey sym a) = st.alert_cooldown (cooldownKey sym a)) :
    check_alert_cooldown st' now sym a c = check_alert_cooldown st now sym a c := by
  unfold check_alert_cooldown
  rw [h]

lemma mem_cad_tbq_iff (st : MonState) (cfg : AlertConfig) (t : Bool)
    (now : ℚ) (d : VolumeData) :
    ("TBQ Spike" ∈ (check_and_trigger_alerts st cfg t now d).triggered_alerts) ↔
      (t = true ∧ d.tbq_change_percent * 100 ≥ cfg.tbq_tsq_threshold ∧
        check_alert_cooldown st now d.symbol "TBQ Spike" 300 = true) := by
  show ("TBQ Spike" ∈ (tbq_spike_step st cfg t now d).1 ++
      (tsq_spike_step (tbq_spike_step st cfg t now d).2 cfg t now d).1) ↔ _
  rw [tbq_spike_step_fst, tsq_spike_step_fst]
  split_ifs <;> simp_all

lemma mem_cad_tsq_iff (st : MonState) (cfg : AlertConfig) (t : Bool)
    (now : ℚ) (d : VolumeData) :
    ("TSQ Spike" ∈ (check_and_trigger_alerts st cfg t now d).triggered_alerts) ↔
      (t = true ∧ d.tsq_change_percent * 100 ≥ cfg.tbq_tsq_threshold ∧
        check_alert_cooldown st now d.symbol "TSQ Spike" 300 = true) := by
  show ("TSQ Spike" ∈ (tbq_spike_step st cfg t now d).1 ++
      (tsq_spike_step (tbq_spike_step st cfg t now d).2 cfg t now d).1) ↔ _
  rw [tbq_spike_step_fst, tsq_spike_step_fst,
    check_alert_cooldown_congr st (tbq_spike_step st cfg t now d).2 now d.symbol "TSQ Spike" 300
      (tbq_spike_step_cooldown_ne st cfg t now d _ (cooldownKey_tsq_ne_tbq d.symbol))]
  split_ifs <;> simp_all

@[simp] lemma stability_step_cooldown (st : MonState) (cfg : AlertConfig)
    (now : ℚ) (d : VolumeData) (ta : List String) :
    (stability_step st cfg now d ta).2.alert_cooldown = st.alert_cooldown :=
  (stability_step_state_frame st cfg now d ta).2.2.2.2.2.2.2.2.2.2.2

lemma tbq_spike_step_cooldown_self (st : MonState) (cfg : AlertConfig) (t : Bool)
    (now : ℚ) (d : VolumeData) (h1 : t = true)
    (h2 : d.tbq_change_percent * 100 ≥ cfg.tbq_tsq_threshold)
    (h3 : check_alert_cooldown st now d.symbol "TBQ Spike" 300 = true) :
    (tbq_spike_step st cfg t now d).2.alert_cooldown
      (cooldownKey d.symbol "TBQ Spike") = some now := by
  unfold tbq_spike_step update_alert_cooldown setActive popStart
  split_ifs <;> simp_all

lemma tsq_spike_step_cooldown_self (st : MonState) (cfg : AlertConfig) (t : Bool)
    (now : ℚ) (d : VolumeData) (h1 : t = true)
    (h2 : d.tsq_change_percent * 100 ≥ cfg.tbq_tsq_threshold)
    (h3 : check_alert_cooldown st now d.symbol "TSQ Spike" 300 = true) :
    (tsq_spike_step st cfg t now d).2.alert_cooldown
      (cooldownKey d.symbol "TSQ Spike") = some now := by
  unfold tsq_spike_step update_alert_cooldown setActive popStart
  split_ifs <;> simp_all

lemma cad_cooldown_tbq_of_fired (st : MonState) (cfg : AlertConfig) (t : Bool)
    (now : ℚ) (d : VolumeData)
    (h : "TBQ Spike" ∈ (check_and_trigger_alerts st cfg t now d).triggered_alerts) :
    (check_and_trigger_alerts st cfg t now d).state.alert_cooldown
      (cooldownKey d.symbol "TBQ Spike") = some now := by
  rw [mem_cad_tbq_iff] at h
  obtain ⟨h1, h2, h3⟩ := h
  show (stability_step (tsq_spike_step (tbq_spike_step st cfg t now d).2 cfg t now d).2
      cfg now d ((tbq_spike_step st cfg t now d).1 ++
        (tsq_spike_step (tbq_spike_step st cfg t now d).2 cfg t now d).1)).2.alert_cooldown
      (cooldownKey d.symbol "TBQ Spike") = some now
  rw [stability_step_cooldown,
    tsq_spike_step_cooldown_ne _ cfg t now d _ (cooldownKey_tsq_ne_tbq d.symbol).symm]
  exact tbq_spike_step_cooldown_self st cfg t now d h1 h2 h3

lemma cad_cooldown_tsq_of_fired (st : MonState) (cfg : AlertConfig) (t : Bool)
    (now : ℚ) (d : VolumeData)
    (h : "TSQ Spike" ∈ (check_and_trigger_alerts st cfg t now d).triggered_alerts) :
    (check_and_trigger_alerts st cfg t now d).state.alert_cooldown
      (cooldownKey d.symbol "TSQ Spike") = some now := by
  rw [mem_cad_tsq_iff] at h
  obtain ⟨h1, h2, h3⟩ := h
  show (stability_step (tsq_spike_step (tbq_spike_step st cfg t now d).2 cfg t now d).2
      cfg now d ((tbq_spike_step st cfg t now d).1 ++
        (tsq_spike_step (tbq_spike_step st cfg t now d).2 cfg t now d).1)).2.alert_cooldown
      (cooldownKey d.symbol "TSQ Spike") = some now
  rw [stability_step_cooldown]
  refine tsq_spike_step_cooldown_self _ cfg t now d h1 h2 ?_
  rw [check_alert_cooldown_congr st (tbq_spike_step st cfg t now d).2 now d.symbol "TSQ Spike" 300
    (tbq_spike_step_cooldown_ne st cfg t now d _ (cooldownKey_tsq_ne_tbq d.symbol))]
  exact h3

@[simp] lemma tbq_spike_step_lbd (st : MonState) (cfg : AlertConfig) (t : Bool)
    (now : ℚ) (d : VolumeData) :
    (tbq_spike_step st cfg t now d).2.last_baseline_data = st.last_baseline_data :=
  (tbq_spike_step_state_frame st cfg t now d).2.2.2.2.2.2.2.2.2.2.2

@[simp] lemma tsq_spike_step_lbd (st : MonState) (cfg : AlertConfig) (t : Bool)
    (now : ℚ) (d : VolumeData) :
    (tsq_spike_step st cfg t now d).2.last_baseline_data = st.last_baseline_data :=
  (tsq_spike_step_state_frame st cfg t now d).2.2.2.2.2.2.2.2.2.2.2

/-- With no recorded baseline a symbol is never judged stable. -/
lemma check_stability_of_no_baseline (st : MonState) (symbol : StockSymbol)
    (d : VolumeData) (threshold : ℚ) (h : st.last_baseline_data symbol = none) :
    check_stability st symbol d threshold = false := by
  unfold check_stability
  rw [h]

/-- If no symbol has a recorded baseline, the stability block records none
either: its only write to `last_baseline_data` is guarded by a stability
check that requires an existing baseline. -/
lemma stability_step_lbd_none (st : MonState) (cfg : AlertConfig)
    (now : ℚ) (d : VolumeData) (ta : List String)
    (h : ∀ s, st.last_baseline_data s = none) :
    ∀ s, (stability_step st cfg now d ta).2.last_baseline_data s = none := by
  have hcs : check_stability st d.symbol d cfg.stability_threshold = false :=
    check_stability_of_no_baseline st d.symbol d cfg.stability_threshold (h d.symbol)
  intro s
  unfold stability_step
  split_ifs <;> simp_all [popStart, setStart]

lemma cad_lbd_none (st : MonState) (cfg : AlertConfig) (t : Bool)
    (now : ℚ) (d : VolumeData) (h : ∀ s, st.last_baseline_data s = none) :
    ∀ s, (check_and_trigger_alerts st cfg t now d).state.last_baseline_data s = none := by
  intro s
  unfold check_and_trigger_alerts
  apply stability_step_lbd_none
  intro s'
  simp [h s']

/-- `_fetch_and_process_live_data` never changes `running`, `paused`, the
watchlist or the stored reset date. -/
lemma fetch_state_frame (st : MonState) (cfg : AlertConfig) (t : Bool)
    (now : ℚ) (symbol : StockSymbol) (q : Quote) :
    (fetch_and_process_live_data st cfg t now symbol q).state.running = st.running ∧
    (fetch_and_process_live_data st cfg t now symbol q).state.paused = st.paused ∧
    (fetch_and_process_live_data st cfg t now symbol q).state.monitored_symbols =
      st.monitored_symbols ∧
    (fetch_and_process_live_data st cfg t now symbol q).state.last_reset_date =
      st.last_reset_date := by
  unfold fetch_and_process_live_data
  simp [apply_ite MonState.running, apply_ite MonState.paused,
    apply_ite MonState.monitored_symbols, apply_ite MonState.last_reset_date]

/-- `_fetch_and_process_live_data` keeps `last_baseline_data` empty: neither
the baseline seeding, the daily high/low block, nor the alert check writes a
stability baseline when none exists. -/
lemma fetch_lbd_none (st : MonState) (cfg : AlertConfig) (t : Bool)
    (now : ℚ) (symbol : StockSymbol) (q : Quote)
    (h : ∀ s, st.last_baseline_data s = none) :
    ∀ s, (fetch_and_process_live_data st cfg t now symbol q).state.last_baseline_data
      s = none := by
  intro s
  unfold fetch_and_process_live_data
  refine cad_lbd_none _ cfg t now _ ?_ s
  intro s'
  simp [apply_ite MonState.last_baseline_data, ite_apply, h s']

lemma fetch_vd_tbq_change (st : MonState) (cfg : AlertConfig) (t : Bool)
    (now : ℚ) (symbol : StockSymbol) (q : Quote) :
    (fetch_and_process_live_data st cfg t now symbol q).volume_data.tbq_change_percent =
      if prev_tick_tbq st symbol ≠ 0 then
        ((q.buy_quantity : ℚ) - (prev_tick_tbq st symbol : ℚ)) / (prev_tick_tbq st symbol : ℚ)
      else if q.buy_quantity > 0 then 1 else 0 := by
  unfold fetch_and_process_live_data prev_tick_tbq
  simp

lemma fetch_vd_tsq_change (st : MonState) (cfg : AlertConfig) (t : Bool)
    (now : ℚ) (symbol : StockSymbol) (q : Quote) :
    (fetch_and_process_live_data st cfg t now symbol q).volume_data.tsq_change_percent =
      if prev_tick_tsq st symbol ≠ 0 then
        ((q.sell_quantity : ℚ) - (prev_tick_tsq st symbol : ℚ)) / (prev_tick_tsq st symbol : ℚ)
      else if q.sell_quantity > 0 then 1 else 0 := by
  unfold fetch_and_process_live_data prev_tick_tsq
  simp

lemma cad_data_is_tbq_true (st : MonState) (cfg : AlertConfig) (t : Bool)
    (now : ℚ) (d : VolumeData) (h : d.is_tbq_baseline = true) :
    (check_and_trigger_alerts st cfg t now d).data.is_tbq_baseline = true := by
  rcases cad_data_eq st cfg t now d with h1 | h1 <;> simp [h1, h]

lemma cad_data_is_tsq_true (st : MonState) (cfg : AlertConfig) (t : Bool)
    (now : ℚ) (d : VolumeData) (h : d.is_tsq_baseline = true) :
    (check_and_trigger_alerts st cfg t now d).data.is_tsq_baseline = true := by
  rcases cad_data_eq st cfg t now d with h1 | h1 <;> simp [h1, h]

lemma fetch_first_obs_baselines (st : MonState) (cfg : AlertConfig) (t : Bool)
    (now : ℚ) (symbol : StockSymbol) (q : Quote)
    (hb : st.tbq_baselines symbol = none) (hs : st.tsq_baselines symbol = none) :
    (fetch_and_process_live_data st cfg t now symbol q).state.tbq_baselines symbol =
      some q.buy_quantity ∧
    (fetch_and_process_live_data st cfg t now symbol q).state.tsq_baselines symbol =
      some q.sell_quantity ∧
    (fetch_and_process_live_data st cfg t now symbol q).volume_data.is_tbq_baseline = true ∧
    (fetch_and_process_live_data st cfg t now symbol q).volume_data.is_tsq_baseline = true := by
  unfold fetch_and_process_live_data
  simp [hb, hs, apply_ite MonState.tbq_baselines, apply_ite MonState.tsq_baselines,
    ite_apply, cad_data_is_tbq_true, cad_data_is_tsq_true]

lemma fetch_daily_maps_none (st : MonState) (cfg : AlertConfig) (t : Bool)
    (now : ℚ) (symbol : StockSymbol) (q : Quote)
    (h1 : ∀ s, st.symbol_daily_max_tbq s = none)
    (h2 : ∀ s, st.symbol_daily_min_tbq s = none)
    (h3 : ∀ s, st.symbol_daily_max_tsq s = none)
    (h4 : ∀ s, st.symbol_daily_min_tsq s = none) :
    (∀ s, (fetch_and_process_live_data st cfg t now symbol q).state.symbol_daily_max_tbq
      s = none) ∧
    (∀ s, (fetch_and_process_live_data st cfg t now symbol q).state.symbol_daily_min_tbq
      s = none) ∧
    (∀ s, (fetch_and_process_live_data st cfg t now symbol q).state.symbol_daily_max_tsq
      s = none) ∧
    (∀ s, (fetch_and_process_live_data st cfg t now symbol q).state.symbol_daily_min_tsq
      s = none) ∧
    (fetch_and_process_live_data st cfg t now symbol q).volume_data.day_high_tbq =
      q.buy_quantity ∧
    (fetch_and_process_live_data st cfg t now symbol q).volume_data.day_low_tbq =
      q.buy_quantity ∧
    (fetch_and_process_live_data st cfg t now symbol q).volume_data.day_high_tsq =
      q.sell_quantity ∧
    (fetch_and_process_live_data st cfg t now symbol q).volume_data.day_low_tsq =
      q.sell_quantity := by
  unfold fetch_and_process_live_data
  simp [h1, h2, h3, h4, apply_ite MonState.symbol_daily_max_tbq,
    apply_ite MonState.symbol_daily_min_tbq, apply_ite MonState.symbol_daily_max_tsq,
    apply_ite MonState.symbol_daily_min_tsq, ite_apply]

lemma fetch_fire_tbq_iff (st : MonState) (cfg : AlertConfig) (t : Bool)
    (now : ℚ) (symbol : StockSymbol) (q : Quote) :
    ("TBQ Spike" ∈ (fetch_and_process_live_data st cfg t now symbol q).triggered_alert_types) ↔
      (t = true ∧
        (if prev_tick_tbq st symbol ≠ 0 then
            ((q.buy_quantity : ℚ) - (prev_tick_tbq st symbol : ℚ)) / (prev_tick_tbq st symbol : ℚ)
         else if q.buy_quantity > 0 then 1 else 0) * 100 ≥ cfg.tbq_tsq_threshold ∧
        check_alert_cooldown st now symbol "TBQ Spike" 300 = true) := by
  unfold fetch_and_process_live_data prev_tick_tbq
  simp only [mem_cad_tbq_iff]
  simp [check_alert_cooldown, apply_ite MonState.alert_cooldown, ite_apply]

lemma process_symbol_error (st : MonState) (cfg : AlertConfig) (t : Bool)
    (now : ℚ) (sym : StockSymbol) (e : String) :
    process_symbol st cfg t now sym (Except.error e) =
      (st, [Output.error_occurred ("Error fetching data for " ++ sym ++ ": " ++ e)]) := rfl

lemma process_symbol_running (st : MonState) (cfg : AlertConfig) (t : Bool)
    (now : ℚ) (sym : StockSymbol) (q : Except String Quote) :
    (process_symbol st cfg t now sym q).1.running = st.running := by
  cases q with
  | error e => rfl
  | ok q => exact (fetch_state_frame st cfg t now sym q).1

lemma process_symbol_lbd_none (st : MonState) (cfg : AlertConfig) (t : Bool)
    (now : ℚ) (sym : StockSymbol) (q : Except String Quote)
    (h : ∀ s, st.last_baseline_data s = none) :
    ∀ s, (process_symbol st cfg t now sym q).1.last_baseline_data s = none := by
  cases q with
  | error e => exact h
  | ok q => exact fetch_lbd_none st cfg t now sym q h

lemma process_symbol_daily_none (st : MonState) (cfg : AlertConfig) (t : Bool)
    (now : ℚ) (sym : StockSymbol) (q : Except String Quote)
    (h1 : ∀ s, st.symbol_daily_max_tbq s = none)
    (h2 : ∀ s, st.symbol_daily_min_tbq s = none)
    (h3 : ∀ s, st.symbol_daily_max_tsq s = none)
    (h4 : ∀ s, st.symbol_daily_min_tsq s = none) :
    (∀ s, (process_symbol st cfg t now sym q).1.symbol_daily_max_tbq s = none) ∧
    (∀ s, (process_symbol st cfg t now sym q).1.symbol_daily_min_tbq s = none) ∧
    (∀ s, (process_symbol st cfg t now sym q).1.symbol_daily_max_tsq s = none) ∧
    (∀ s, (process_symbol st cfg t now sym q).1.symbol_daily_min_tsq s = none) := by
  cases q with
  | error e => exact ⟨h1, h2, h3, h4⟩
  | ok q =>
    obtain ⟨g1, g2, g3, g4, _⟩ := fetch_daily_maps_none st cfg t now sym q h1 h2 h3 h4
    exact ⟨g1, g2, g3, g4⟩

lemma process_symbols_running (cfg : AlertConfig) (t : Bool) (now : ℚ)
    (quotes : StockSymbol → Except String Quote) :
    ∀ (l : List StockSymbol) (st : MonState),
      (process_symbols cfg t now quotes st l).1.running = st.running := by
  intro l
  induction l with
  | nil => intro st; rfl
  | cons sym rest ih =>
    intro st
    show (process_symbols cfg t now quotes
      (process_symbol st cfg t now sym (quotes sym)).1 rest).1.running = st.running
    rw [ih, process_symbol_running]

lemma process_symbols_lbd_none (cfg : AlertConfig) (t : Bool) (now : ℚ)
    (quotes : StockSymbol → Except String Quote) :
    ∀ (l : List StockSymbol) (st : MonState),
      (∀ s, st.last_baseline_data s = none) →
      ∀ s, (process_symbols cfg t now quotes st l).1.last_baseline_data s = none := by
  intro l
  induction l with
  | nil => intro st h; exact h
  | cons sym rest ih =>
    intro st h
    exact ih (process_symbol st cfg t now sym (quotes sym)).1
      (process_symbol_lbd_none st cfg t now sym (quotes sym) h)

lemma process_symbols_daily_none (cfg : AlertConfig) (t : Bool) (now : ℚ)
    (quotes : StockSymbol → Except String Quote) :
    ∀ (l : List StockSymbol) (st : MonState),
      (∀ s, st.symbol_daily_max_tbq s = none) →
      (∀ s, st.symbol_daily_min_tbq s = none) →
      (∀ s, st.symbol_daily_max_tsq s = none) →
      (∀ s, st.symbol_daily_min_tsq s = none) →
      (∀ s, (process_symbols cfg t now quotes st l).1.symbol_daily_max_tbq s = none) ∧
      (∀ s, (process_symbols cfg t now quotes st l).1.symbol_daily_min_tbq s = none) ∧
      (∀ s, (process_symbols cfg t now quotes st l).1.symbol_daily_max_tsq s = none) ∧
      (∀ s, (process_symbols cfg t now quotes st l).1.symbol_daily_min_tsq s = none) := by
  intro l
  induction l with
  | nil => intro st h1 h2 h3 h4; exact ⟨h1, h2, h3, h4⟩
  | cons sym rest ih =>
    intro st h1 h2 h3 h4
    obtain ⟨g1, g2, g3, g4⟩ :=
      process_symbol_daily_none st cfg t now sym (quotes sym) h1 h2 h3 h4
    exact ih (process_symbol st cfg t now sym (quotes sym)).1 g1 g2 g3 g4

lemma process_symbols_append (cfg : AlertConfig) (t : Bool) (now : ℚ)
    (quotes : StockSymbol → Except String Quote) :
    ∀ (l1 l2 : List StockSymbol) (st : MonState),
      process_symbols cfg t now quotes st (l1 ++ l2) =
        ((process_symbols cfg t now quotes
            (process_symbols cfg t now quotes st l1).1 l2).1,
         (process_symbols cfg t now quotes st l1).2 ++
          (process_symbols cfg t now quotes
            (process_symbols cfg t now quotes st l1).1 l2).2) := by
  intro l1
  induction l1 with
  | nil => intro l2 st; simp [process_symbols]
  | cons sym rest ih =>
    intro l2 st
    simp only [List.cons_append, process_symbols, List.append_eq]
    rw [ih]
    simp [List.append_assoc]

lemma day_rollover_of_ne (st : MonState) (d : ℤ) (h : d ≠ st.last_reset_date) :
    (day_rollover st d).symbol_daily_max_tbq = (fun _ => none) ∧
    (day_rollover st d).symbol_daily_min_tbq = (fun _ => none) ∧
    (day_rollover st d).symbol_daily_max_tsq = (fun _ => none) ∧
    (day_rollover st d).symbol_daily_min_tsq = (fun _ => none) ∧
    (day_rollover st d).last_reset_date = d ∧
    (day_rollover st d).tbq_baselines = st.tbq_baselines ∧
    (day_rollover st d).tsq_baselines = st.tsq_baselines ∧
    (day_rollover st d).alert_cooldown = st.alert_cooldown ∧
    (day_rollover st d).previous_volume_data = st.previous_volume_data ∧
    (day_rollover st d).stability_check_active = st.stability_check_active ∧
    (day_rollover st d).stability_start_times = st.stability_start_times ∧
    (day_rollover st d).last_baseline_data = st.last_baseline_data ∧
    (day_rollover st d).running = st.running ∧
    (day_rollover st d).paused = st.paused ∧
    (day_rollover st d).monitored_symbols = st.monitored_symbols := by
  unfold day_rollover
  rw [if_pos h]
  exact ⟨rfl, rfl, rfl, rfl, rfl, rfl, rfl, rfl, rfl, rfl, rfl, rfl, rfl, rfl, rfl⟩

lemma day_rollover_of_eq (st : MonState) (d : ℤ) (h : d = st.last_reset_date) :
    day_rollover st d = st := by
  unfold day_rollover
  rw [if_neg (by simpa using h)]

/-- For a non-paused tick, the `run` loop body first applies the day rollover,
then gates on the hard-coded market window: a closed-market tick performs no
symbol processing at all. -/
lemma run_iteration_not_paused (st : MonState) (cfg : AlertConfig) (input : TickInput)
    (h : st.paused = false) :
    run_iteration st cfg input =
      (if market_start_time ≤ input.current_time ∧ input.current_time ≤ market_end_time
       then
        ((process_symbols cfg input.trade_on_tbq_tsq_alert input.now input.quotes
            (day_rollover st input.current_date)
            (day_rollover st input.current_date).monitored_symbols).1,
         (process_symbols cfg input.trade_on_tbq_tsq_alert input.now input.quotes
            (day_rollover st input.current_date)
            (day_rollover st input.current_date).monitored_symbols).2 ++
          [Output.status_changed "Monitoring active. Next update in 5 seconds.",
           Output.sleep 5])
       else
        (day_rollover st input.current_date,
         [Output.status_changed "Market closed. Waiting until 09:00.",
          Output.sleep 60])) := by
  unfold run_iteration
  rw [if_neg (by simp [h])]

lemma day_rollover_lbd (st : MonState) (d : ℤ) :
    (day_rollover st d).last_baseline_data = st.last_baseline_data := by
  unfold day_rollover
  split_ifs <;> rfl

lemma day_rollover_running (st : MonState) (d : ℤ) :
    (day_rollover st d).running = st.running := by
  unfold day_rollover
  split_ifs <;> rfl

lemma run_iteration_lbd_none (st : MonState) (cfg : AlertConfig) (input : TickInput)
    (h : ∀ s, st.last_baseline_data s = none) :
    ∀ s, (run_iteration st cfg input).1.last_baseline_data s = none := by
  intro s
  by_cases hp : st.paused = true
  · unfold run_iteration
    rw [if_pos hp]
    exact h s
  · rw [run_iteration_not_paused st cfg input (by simpa using hp)]
    split_ifs with ho
    · exact process_symbols_lbd_none cfg input.trade_on_tbq_tsq_alert input.now
        input.quotes _ _ (fun s' => by rw [day_rollover_lbd]; exact h s') s
    · show (day_rollover st input.current_date).last_baseline_data s = none
      rw [day_rollover_lbd]
      exact h s

lemma run_iteration_daily_none (st : MonState) (cfg : AlertConfig) (input : TickInput)
    (h1 : ∀ s, st.symbol_daily_max_tbq s = none)
    (h2 : ∀ s, st.symbol_daily_min_tbq s = none)
    (h3 : ∀ s, st.symbol_daily_max_tsq s = none)
    (h4 : ∀ s, st.symbol_daily_min_tsq s = none) :
    (∀ s, (run_iteration st cfg input).1.symbol_daily_max_tbq s = none) ∧
    (∀ s, (run_iteration st cfg input).1.symbol_daily_min_tbq s = none) ∧
    (∀ s, (run_iteration st cfg input).1.symbol_daily_max_tsq s = none) ∧
    (∀ s, (run_iteration st cfg input).1.symbol_daily_min_tsq s = none) := by
  have hroll : (∀ s, (day_rollover st input.current_date).symbol_daily_max_tbq s = none) ∧
      (∀ s, (day_rollover st input.current_date).symbol_daily_min_tbq s = none) ∧
      (∀ s, (day_rollover st input.current_date).symbol_daily_max_tsq s = none) ∧
      (∀ s, (day_rollover st input.current_date).symbol_daily_min_tsq s = none) := by
    unfold day_rollover
    split_ifs <;> exact ⟨fun s => by simp_all, fun s => by simp_all,
      fun s => by simp_all, fun s => by simp_all⟩
  by_cases hp : st.paused = true
  · unfold run_iteration
    rw [if_pos hp]
    exact ⟨h1, h2, h3, h4⟩
  · rw [run_iteration_not_paused st cfg input (by simpa using hp)]
    split_ifs with ho
    · exact process_symbols_daily_none cfg input.trade_on_tbq_tsq_alert input.now
        input.quotes _ _ hroll.1 hroll.2.1 hroll.2.2.1 hroll.2.2.2
    · exact hroll

lemma run_iteration_running (st : MonState) (cfg : AlertConfig) (input : TickInput) :
    (run_iteration st cfg input).1.running = st.running := by
  by_cases hp : st.paused = true
  · unfold run_iteration
    rw [if_pos hp]
  · rw [run_iteration_not_paused st cfg input (by simpa using hp)]
    split_ifs with ho
    · show (process_symbols cfg input.trade_on_tbq_tsq_alert input.now input.quotes
        (day_rollover st input.current_date)
        (day_rollover st input.current_date).monitored_symbols).1.running = st.running
      rw [process_symbols_running, day_rollover_running]
    · exact day_rollover_running st input.current_date

lemma run_ticks_lbd_none (cfg : AlertConfig) :
    ∀ (inputs : List TickInput) (st : MonState),
      (∀ s, st.last_baseline_data s = none) →
      ∀ s, (run_ticks cfg st inputs).last_baseline_data s = none := by
  intro inputs
  induction inputs with
  | nil => intro st h; exact h
  | cons input rest ih =>
    intro st h
    exact ih (run_iteration st cfg input).1 (run_iteration_lbd_none st cfg input h)

lemma run_ticks_daily_none (cfg : AlertConfig) :
    ∀ (inputs : List TickInput) (st : MonState),
      (∀ s, st.symbol_daily_max_tbq s = none) →
      (∀ s, st.symbol_daily_min_tbq s = none) →
      (∀ s, st.symbol_daily_max_tsq s = none) →
      (∀ s, st.symbol_daily_min_tsq s = none) →
      (∀ s, (run_ticks cfg st inputs).symbol_daily_max_tbq s = none) ∧
      (∀ s, (run_ticks cfg st inputs).symbol_daily_min_tbq s = none) ∧
      (∀ s, (run_ticks cfg st inputs).symbol_daily_max_tsq s = none) ∧
      (∀ s, (run_ticks cfg st inputs).symbol_daily_min_tsq s = none) := by
  intro inputs
  induction inputs with
  | nil => intro st h1 h2 h3 h4; exact ⟨h1, h2, h3, h4⟩
  | cons input rest ih =>
    intro st h1 h2 h3 h4
    obtain ⟨g1, g2, g3, g4⟩ := run_iteration_daily_none st cfg input h1 h2 h3 h4
    exact ih (run_iteration st cfg input).1 g1 g2 g3 g4
/-! ## Claims -/

/-- C1, counterexample: the emitted buy-side change percent is not computed
against the baseline recorded at the symbol's first observation.  After ticks
with TBQ 100, 150, 150 the first-observation baseline is still 100 and the
current quantity is 150, so the claimed formula gives (150-100)/100 = 1/2,
but the code (which divides by the previous tick's quantity) emits 0. -/
theorem claim_C1_counterexample :
    tickA3.state.tbq_baselines "X" = some 100 ∧
    tickA3.volume_data.tbq = 150 ∧
    tickA3.volume_data.tbq_change_percent = 0 ∧
    ((150 : ℚ) - 100) / 100 = 1/2 ∧
    tickA3.volume_data.tbq_change_percent ≠ ((150 : ℚ) - 100) / 100 := by
  with_unfolding_all decide

/-- C1, amended: for every evaluation of a snapshot, the buy-side change
percent equals (current - prev) / prev where prev is the quantity stored by
the previous tick of that symbol (0 when there is none), with the
divide-by-zero convention that a zero previous quantity yields 1.0 when the
current quantity is positive and 0.0 otherwise; the sell side follows the
same formula (so previous buy 100 and current buy 150 give 0.5). -/
theorem claim_C1_amended :
    (∀ (st : MonState) (cfg : AlertConfig) (t : Bool) (now : ℚ)
        (symbol : StockSymbol) (q : Quote),
      (fetch_and_process_live_data st cfg t now symbol q).volume_data.tbq_change_percent =
        (if prev_tick_tbq st symbol ≠ 0 then
          ((q.buy_quantity : ℚ) - (prev_tick_tbq st symbol : ℚ)) /
            (prev_tick_tbq st symbol : ℚ)
         else if q.buy_quantity > 0 then 1 else 0) ∧
      (fetch_and_process_live_data st cfg t now symbol q).volume_data.tsq_change_percent =
        (if prev_tick_tsq st symbol ≠ 0 then
          ((q.sell_quantity : ℚ) - (prev_tick_tsq st symbol : ℚ)) /
            (prev_tick_tsq st symbol : ℚ)
         else if q.sell_quantity > 0 then 1 else 0)) ∧
    prev_tick_tbq tickA1.state "X" = 100 ∧
    tickA2.volume_data.tbq_change_percent = 1/2 := by
  refine ⟨fun st cfg t now symbol q =>
    ⟨fetch_vd_tbq_change st cfg t now symbol q,
     fetch_vd_tsq_change st cfg t now symbol q⟩, ?_, ?_⟩ <;>
    with_unfolding_all decide

/-- C2, counterexample: on the very first observation of a symbol the emitted
change percents are not 0: with a positive quantity they are 1.0, because the
missing previous snapshot makes the code take its zero-divisor branch. -/
theorem claim_C2_counterexample :
    st0.previous_volume_data "X" = none ∧
    st0.tbq_baselines "X" = none ∧
    tickA1.volume_data.tbq_change_percent = 1 ∧
    tickA1.volume_data.tbq_change_percent ≠ 0 := by
  with_unfolding_all decide

/-- C2, amended: on the first observation of a symbol the baselines are
initialized to the current quantities and the snapshot is flagged as a
baseline, but the emitted change percents are 1.0 for a positive current
quantity and 0.0 otherwise (not 0 in general). -/
theorem claim_C2_amended (st : MonState) (cfg : AlertConfig) (t : Bool) (now : ℚ)
    (symbol : StockSymbol) (q : Quote)
    (hp : st.previous_volume_data symbol = none)
    (hb : st.tbq_baselines symbol = none) (hs : st.tsq_baselines symbol = none) :
    (fetch_and_process_live_data st cfg t now symbol q).state.tbq_baselines symbol =
      some q.buy_quantity ∧
    (fetch_and_process_live_data st cfg t now symbol q).state.tsq_baselines symbol =
      some q.sell_quantity ∧
    (fetch_and_process_live_data st cfg t now symbol q).volume_data.is_tbq_baseline = true ∧
    (fetch_and_process_live_data st cfg t now symbol q).volume_data.is_tsq_baseline = true ∧
    (fetch_and_process_live_data st cfg t now symbol q).volume_data.tbq_change_percent =
      (if q.buy_quantity > 0 then 1 else 0) ∧
    (fetch_and_process_live_data st cfg t now symbol q).volume_data.tsq_change_percent =
      (if q.sell_quantity > 0 then 1 else 0) := by
  obtain ⟨g1, g2, g3, g4⟩ := fetch_first_obs_baselines st cfg t now symbol q hb hs
  refine ⟨g1, g2, g3, g4, ?_, ?_⟩
  · rw [fetch_vd_tbq_change]
    simp [prev_tick_tbq, hp]
  · rw [fetch_vd_tsq_change]
    simp [prev_tick_tsq, hp]

/-- C2 witness: the amended statement at the concrete first tick of `"X"`. -/
theorem claim_C2_witness :
    st0.previous_volume_data "X" = none ∧ st0.tbq_baselines "X" = none ∧
    st0.tsq_baselines "X" = none ∧
    ((fetch_and_process_live_data st0 cfg5 true 0 "X" (qX 100)).state.tbq_baselines "X" =
        some (qX 100).buy_quantity ∧
     (fetch_and_process_live_data st0 cfg5 true 0 "X" (qX 100)).state.tsq_baselines "X" =
        some (qX 100).sell_quantity ∧
     (fetch_and_process_live_data st0 cfg5 true 0 "X" (qX 100)).volume_data.is_tbq_baseline
        = true ∧
     (fetch_and_process_live_data st0 cfg5 true 0 "X" (qX 100)).volume_data.is_tsq_baseline
        = true ∧
     (fetch_and_process_live_data st0 cfg5 true 0 "X" (qX 100)).volume_data.tbq_change_percent
        = (if (qX 100).buy_quantity > 0 then 1 else 0) ∧
     (fetch_and_process_live_data st0 cfg5 true 0 "X" (qX 100)).volume_data.tsq_change_percent
        = (if (qX 100).sell_quantity > 0 then 1 else 0)) :=
  ⟨rfl, rfl, rfl, claim_C2_amended st0 cfg5 true 0 "X" (qX 100) rfl rfl rfl⟩

/-- C3, counterexample: with the threshold read in the claimed fraction
convention (0.05 = 5 percent), a buy-side change of -10 percent satisfies
`abs(changePercent) >= threshold` with a fresh cooldown, yet the code fires
nothing: it compares `changePercent * 100 >= threshold` with no absolute
value, so a negative change never fires. -/
theorem claim_C3_counterexample :
    |dC.tbq_change_percent| ≥ cfgFrac.tbq_tsq_threshold ∧
    check_alert_cooldown st0 0 dC.symbol "TBQ Spike" 300 = true ∧
    check_alert_cooldown st0 0 dC.symbol "TSQ Spike" 300 = true ∧
    (check_and_trigger_alerts st0 cfgFrac true 0 dC).triggered_alerts = [] := by
  with_unfolding_all decide

/-- C3, amended: a TBQ (resp. TSQ) spike fires for a tick exactly when the
tbq/tsq alert setting is enabled, the side's change percent multiplied by 100
meets or exceeds the configured threshold (the change is a fraction, the
threshold a percent figure; there is no absolute value, so only increases
fire), and at least 300 seconds (the fixed default cooldown) have elapsed
since the last firing recorded for that exact (symbol, alert kind) pair; on
firing the current time is recorded for that pair, restarting the cooldown. -/
theorem claim_C3_amended (st : MonState) (cfg : AlertConfig) (t : Bool)
    (now : ℚ) (d : VolumeData) :
    (("TBQ Spike" ∈ (check_and_trigger_alerts st cfg t now d).triggered_alerts) ↔
      (t = true ∧ d.tbq_change_percent * 100 ≥ cfg.tbq_tsq_threshold ∧
        check_alert_cooldown st now d.symbol "TBQ Spike" 300 = true)) ∧
    (("TSQ Spike" ∈ (check_and_trigger_alerts st cfg t now d).triggered_alerts) ↔
      (t = true ∧ d.tsq_change_percent * 100 ≥ cfg.tbq_tsq_threshold ∧
        check_alert_cooldown st now d.symbol "TSQ Spike" 300 = true)) ∧
    ("TBQ Spike" ∈ (check_and_trigger_alerts st cfg t now d).triggered_alerts →
      (check_and_trigger_alerts st cfg t now d).state.alert_cooldown
        (cooldownKey d.symbol "TBQ Spike") = some now) ∧
    ("TSQ Spike" ∈ (check_and_trigger_alerts st cfg t now d).triggered_alerts →
      (check_and_trigger_alerts st cfg t now d).state.alert_cooldown
        (cooldownKey d.symbol "TSQ Spike") = some now) :=
  ⟨mem_cad_tbq_iff st cfg t now d, mem_cad_tsq_iff st cfg t now d,
   cad_cooldown_tbq_of_fired st cfg t now d, cad_cooldown_tsq_of_fired st cfg t now d⟩

/-- C3 witness: at a snapshot whose buy side rose 50 percent against a 5
percent threshold with a fresh cooldown, the spike does fire and the firing
time is recorded for the (symbol, kind) pair. -/
theorem claim_C3_witness :
    dF.tbq_change_percent * 100 ≥ cfg5.tbq_tsq_threshold ∧
    check_alert_cooldown st0 0 dF.symbol "TBQ Spike" 300 = true ∧
    "TBQ Spike" ∈ (check_and_trigger_alerts st0 cfg5 true 0 dF).triggered_alerts ∧
    (check_and_trigger_alerts st0 cfg5 true 0 dF).state.alert_cooldown
      (cooldownKey dF.symbol "TBQ Spike") = some 0 := by
  have hm : "TBQ Spike" ∈ (check_and_trigger_alerts st0 cfg5 true 0 dF).triggered_alerts :=
    (claim_C3_amended st0 cfg5 true 0 dF).1.mpr
      ⟨rfl, by norm_num [dF, dC, cfg5], rfl⟩
  exact ⟨by norm_num [dF, dC, cfg5], rfl, hm,
    (claim_C3_amended st0 cfg5 true 0 dF).2.2.1 hm⟩

/-- C4, counterexample: a TBQ spike fires on the tick with TBQ 150, yet the
per-symbol baseline map still holds the first-observation value 100 — the
code never resets `tbq_baselines` when an alert fires. -/
theorem claim_C4_counterexample :
    "TBQ Spike" ∈ tickA2.triggered_alert_types ∧
    tickA2.volume_data.tbq = 150 ∧
    tickA2.state.tbq_baselines "X" = some 100 ∧
    tickA2.state.tbq_baselines "X" ≠ some 150 := by
  with_unfolding_all decide

/-- C4, amended: firing a spike alert does not touch the recorded baseline
quantities (the alert evaluation preserves `tbq_baselines`/`tsq_baselines`
entirely); the reason repeated ticks do not re-fire is that the change is
computed against the previous tick's snapshot, which is overwritten on every
tick — so a subsequent tick whose buy quantity equals the previous one yields
a 0 change percent and fires no TBQ spike (for a positive threshold). -/
theorem claim_C4_amended :
    (∀ (st : MonState) (cfg : AlertConfig) (t : Bool) (now : ℚ) (d : VolumeData),
      (check_and_trigger_alerts st cfg t now d).state.tbq_baselines = st.tbq_baselines ∧
      (check_and_trigger_alerts st cfg t now d).state.tsq_baselines = st.tsq_baselines) ∧
    (∀ (st : MonState) (cfg : AlertConfig) (t : Bool) (now : ℚ)
        (symbol : StockSymbol) (q : Quote) (pd : VolumeData),
      st.previous_volume_data symbol = some pd → pd.tbq = q.buy_quantity →
      0 < cfg.tbq_tsq_threshold →
      (fetch_and_process_live_data st cfg t now symbol q).volume_data.tbq_change_percent
        = 0 ∧
      "TBQ Spike" ∉
        (fetch_and_process_live_data st cfg t now symbol q).triggered_alert_types) := by
  constructor
  · intro st cfg t now d
    exact ⟨cad_state_tbq_baselines st cfg t now d, cad_state_tsq_baselines st cfg t now d⟩
  · intro st cfg t now symbol q pd hp hq hthr
    have hprev : prev_tick_tbq st symbol = q.buy_quantity := by
      unfold prev_tick_tbq
      rw [hp]
      exact hq
    have hzero : (if prev_tick_tbq st symbol ≠ 0 then
        ((q.buy_quantity : ℚ) - (prev_tick_tbq st symbol : ℚ)) /
          (prev_tick_tbq st symbol : ℚ)
      else if q.buy_quantity > 0 then 1 else 0) = 0 := by
      rw [hprev]
      split_ifs with h1 h2
      · rw [sub_self, zero_div]
      · omega
      · rfl
    constructor
    · rw [fetch_vd_tbq_change, hzero]
    · intro hmem
      rw [fetch_fire_tbq_iff] at hmem
      obtain ⟨_, hge, _⟩ := hmem
      rw [hzero] at hge
      simp at hge
      exact absurd (lt_of_lt_of_le hthr hge) (by norm_num)

set_option maxRecDepth 4000 in
/-- C4 witness: at the third tick (TBQ unchanged at 150 after the alert) the
change percent is 0 and no TBQ spike fires. -/
theorem claim_C4_witness :
    tickA2.state.previous_volume_data "X" = some tickA2.volume_data ∧
    tickA2.volume_data.tbq = (qX 150).buy_quantity ∧
    (0 : ℚ) < cfg5.tbq_tsq_threshold ∧
    ((fetch_and_process_live_data tickA2.state cfg5 true 800 "X" (qX 150)).volume_data.tbq_change_percent = 0 ∧
     "TBQ Spike" ∉
      (fetch_and_process_live_data tickA2.state cfg5 true 800 "X" (qX 150)).triggered_alert_types) :=
  ⟨by with_unfolding_all decide, by with_unfolding_all decide,
   by norm_num [cfg5],
   claim_C4_amended.2 tickA2.state cfg5 true 800 "X" (qX 150) tickA2.volume_data
     (by with_unfolding_all decide) (by with_unfolding_all decide) (by norm_num [cfg5])⟩

/-- C5, code bug: stability can never promote a new baseline.
`last_baseline_data` starts empty and its only assignment sits inside a
branch guarded by `_check_stability`, which returns `False` whenever no
baseline exists — so from any fresh engine state, after any sequence of
ticks, every symbol still has no stability baseline and every stability
check is `False`.  Concretely: with stabilityDuration = 0 the tick after the
TBQ-spike tick repeats the exact same quantities (deviation 0 on both
sides), yet it is not marked as a new baseline. -/
theorem claim_C5_code_bug :
    (∀ (cfg : AlertConfig) (symbols : List StockSymbol) (today : ℤ)
        (inputs : List TickInput) (s : StockSymbol),
      (run_ticks cfg (initial_state symbols today) inputs).last_baseline_data s = none ∧
      ∀ (d : VolumeData) (θ : ℚ),
        check_stability (run_ticks cfg (initial_state symbols today) inputs) s d θ
          = false) ∧
    (tickA2.triggered_alert_types = ["TBQ Spike"] ∧
     tickA3.state.stability_check_active "X" = true ∧
     tickA3.triggered_alert_types = [] ∧
     tickA3.volume_data.tbq = tickA2.volume_data.tbq ∧
     tickA3.volume_data.tsq = tickA2.volume_data.tsq ∧
     cfg5.stability_duration = 0 ∧
     tickA3.volume_data.is_tbq_baseline = false ∧
     tickA3.volume_data.is_tsq_baseline = false ∧
     tickA3.state.last_baseline_data "X" = none) := by
  constructor
  · intro cfg symbols today inputs s
    have hnone : ∀ s',
        (run_ticks cfg (initial_state symbols today) inputs).last_baseline_data s'
          = none :=
      run_ticks_lbd_none cfg inputs (initial_state symbols today) (fun _ => rfl)
    exact ⟨hnone s, fun d θ => check_stability_of_no_baseline _ s d θ (hnone s)⟩
  · with_unfolding_all decide

/-- C6, code bug: the daily extreme maps are never populated.  The `.get`
default used when reading them is the current quantity itself, so the strict
comparisons `tbq > current_day_high` / `tbq < current_day_low` never hold on
a first write, and from any fresh engine state every daily-extreme map entry
stays absent after any sequence of ticks; the per-tick "day high/low" values
the engine emits are just the current quantities, which can decrease
(100 then 50 below). -/
theorem claim_C6_code_bug :
    (∀ (cfg : AlertConfig) (symbols : List StockSymbol) (today : ℤ)
        (inputs : List TickInput),
      (∀ s, (run_ticks cfg (initial_state symbols today) inputs).symbol_daily_max_tbq
        s = none) ∧
      (∀ s, (run_ticks cfg (initial_state symbols today) inputs).symbol_daily_min_tbq
        s = none) ∧
      (∀ s, (run_ticks cfg (initial_state symbols today) inputs).symbol_daily_max_tsq
        s = none) ∧
      (∀ s, (run_ticks cfg (initial_state symbols today) inputs).symbol_daily_min_tsq
        s = none)) ∧
    (tickB1.volume_data.day_high_tbq = 100 ∧
     tickB2.volume_data.day_high_tbq = 50 ∧
     tickB2.volume_data.day_low_tbq = 50 ∧
     tickB2.state.symbol_daily_max_tbq "X" = none ∧
     tickB2.state.symbol_daily_min_tbq "X" = none) := by
  constructor
  · intro cfg symbols today inputs
    exact run_ticks_daily_none cfg inputs (initial_state symbols today)
      (fun _ => rfl) (fun _ => rfl) (fun _ => rfl) (fun _ => rfl)
  · with_unfolding_all decide

/-- C7: a non-paused tick applies the day rollover first, whether or not the
market window is open; the rollover clears exactly the four daily-extreme
maps and stores the new date when the date changed, leaves the TBQ/TSQ
baselines and the alert cooldowns untouched, and is the identity when the
date is unchanged. -/
theorem claim_C7 (st : MonState) (cfg : AlertConfig) (input : TickInput)
    (h : st.paused = false) :
    (¬ (market_start_time ≤ input.current_time ∧
        input.current_time ≤ market_end_time) →
      (run_iteration st cfg input).1 = day_rollover st input.current_date) ∧
    ((market_start_time ≤ input.current_time ∧
        input.current_time ≤ market_end_time) →
      (run_iteration st cfg input).1 =
        (process_symbols cfg input.trade_on_tbq_tsq_alert input.now input.quotes
          (day_rollover st input.current_date)
          (day_rollover st input.current_date).monitored_symbols).1) ∧
    (input.current_date ≠ st.last_reset_date →
      (day_rollover st input.current_date).symbol_daily_max_tbq = (fun _ => none) ∧
      (day_rollover st input.current_date).symbol_daily_min_tbq = (fun _ => none) ∧
      (day_rollover st input.current_date).symbol_daily_max_tsq = (fun _ => none) ∧
      (day_rollover st input.current_date).symbol_daily_min_tsq = (fun _ => none) ∧
      (day_rollover st input.current_date).last_reset_date = input.current_date ∧
      (day_rollover st input.current_date).tbq_baselines = st.tbq_baselines ∧
      (day_rollover st input.current_date).tsq_baselines = st.tsq_baselines ∧
      (day_rollover st input.current_date).alert_cooldown = st.alert_cooldown) ∧
    (input.current_date = st.last_reset_date →
      day_rollover st input.current_date = st) := by
  refine ⟨?_, ?_, ?_, day_rollover_of_eq st input.current_date⟩
  · intro hc
    rw [run_iteration_not_paused st cfg input h, if_neg hc]
  · intro ho
    rw [run_iteration_not_paused st cfg input h, if_pos ho]
  · intro hne
    obtain ⟨a1, a2, a3, a4, a5, a6, a7, a8, _⟩ :=
      day_rollover_of_ne st input.current_date hne
    exact ⟨a1, a2, a3, a4, a5, a6, a7, a8⟩

/-- C7 witness: the statement at the concrete closed-market tick with a new
date. -/
theorem claim_C7_witness :
    st0.paused = false ∧
    inputClosed.current_date ≠ st0.last_reset_date ∧
    ((¬ (market_start_time ≤ inputClosed.current_time ∧
        inputClosed.current_time ≤ market_end_time) →
      (run_iteration st0 cfg5 inputClosed).1 = day_rollover st0 inputClosed.current_date) ∧
     ((market_start_time ≤ inputClosed.current_time ∧
        inputClosed.current_time ≤ market_end_time) →
      (run_iteration st0 cfg5 inputClosed).1 =
        (process_symbols cfg5 inputClosed.trade_on_tbq_tsq_alert inputClosed.now
          inputClosed.quotes (day_rollover st0 inputClosed.current_date)
          (day_rollover st0 inputClosed.current_date).monitored_symbols).1) ∧
     (inputClosed.current_date ≠ st0.last_reset_date →
      (day_rollover st0 inputClosed.current_date).symbol_daily_max_tbq = (fun _ => none) ∧
      (day_rollover st0 inputClosed.current_date).symbol_daily_min_tbq = (fun _ => none) ∧
      (day_rollover st0 inputClosed.current_date).symbol_daily_max_tsq = (fun _ => none) ∧
      (day_rollover st0 inputClosed.current_date).symbol_daily_min_tsq = (fun _ => none) ∧
      (day_rollover st0 inputClosed.current_date).last_reset_date =
        inputClosed.current_date ∧
      (day_rollover st0 inputClosed.current_date).tbq_baselines = st0.tbq_baselines ∧
      (day_rollover st0 inputClosed.current_date).tsq_baselines = st0.tsq_baselines ∧
      (day_rollover st0 inputClosed.current_date).alert_cooldown = st0.alert_cooldown) ∧
     (inputClosed.current_date = st0.last_reset_date →
      day_rollover st0 inputClosed.current_date = st0)) :=
  ⟨rfl, by decide, claim_C7 st0 cfg5 inputClosed rfl⟩

/-- C8: if the quote fetch for one monitored symbol raises, the tick reports
the error through `error_occurred` and continues: the state is exactly what
processing the remaining symbols (before and after the failing one) produces,
the error message is inserted between their outputs, and the loop's `running`
flag is untouched. -/
theorem claim_C8 (cfg : AlertConfig) (t : Bool) (now : ℚ)
    (quotes : StockSymbol → Except String Quote) (st : MonState)
    (pre post : List StockSymbol) (sym : StockSymbol) (e : String)
    (h : quotes sym = Except.error e) :
    process_symbols cfg t now quotes st (pre ++ sym :: post) =
      ((process_symbols cfg t now quotes
          (process_symbols cfg t now quotes st pre).1 post).1,
       (process_symbols cfg t now quotes st pre).2 ++
        (Output.error_occurred ("Error fetching data for " ++ sym ++ ": " ++ e) ::
          (process_symbols cfg t now quotes
            (process_symbols cfg t now quotes st pre).1 post).2)) ∧
    (process_symbols cfg t now quotes st (pre ++ sym :: post)).1.running
      = st.running := by
  have hstep : process_symbols cfg t now quotes
      (process_symbols cfg t now quotes st pre).1 (sym :: post) =
      ((process_symbols cfg t now quotes
          (process_symbols cfg t now quotes st pre).1 post).1,
       Output.error_occurred ("Error fetching data for " ++ sym ++ ": " ++ e) ::
        (process_symbols cfg t now quotes
          (process_symbols cfg t now quotes st pre).1 post).2) := by
    show (let r1 := process_symbol (process_symbols cfg t now quotes st pre).1
            cfg t now sym (quotes sym)
          let r2 := process_symbols cfg t now quotes r1.1 post
          ((r2.1, r1.2 ++ r2.2) : MonState × List Output)) = _
    rw [h]
    rfl
  constructor
  · rw [process_symbols_append cfg t now quotes pre (sym :: post) st, hstep]
  · rw [process_symbols_append cfg t now quotes pre (sym :: post) st, hstep,
      process_symbols_running, process_symbols_running]

/-- C8 witness: watchlist A, B, C where the broker fails on B. -/
theorem claim_C8_witness :
    quotesW "B" = Except.error "boom" ∧
    (process_symbols cfg5 true 0 quotesW st0 (["A"] ++ "B" :: ["C"]) =
      ((process_symbols cfg5 true 0 quotesW
          (process_symbols cfg5 true 0 quotesW st0 ["A"]).1 ["C"]).1,
       (process_symbols cfg5 true 0 quotesW st0 ["A"]).2 ++
        (Output.error_occurred ("Error fetching data for " ++ "B" ++ ": " ++ "boom") ::
          (process_symbols cfg5 true 0 quotesW
            (process_symbols cfg5 true 0 quotesW st0 ["A"]).1 ["C"]).2)) ∧
     (process_symbols cfg5 true 0 quotesW st0 (["A"] ++ "B" :: ["C"])).1.running
       = st0.running) :=
  ⟨rfl, claim_C8 cfg5 true 0 quotesW st0 ["A"] ["C"] "B" "boom" rfl⟩

/-- C9: whenever the time of day is outside the hard-coded 09:00:00-15:30:00
window, a non-paused iteration performs no fetch and no per-symbol mutation
beyond the day rollover: it returns exactly the rolled-over state, emits the
market-closed status and a 60 s sleep, leaves `running` unchanged (the loop
never stops itself when the end time passes), and its result is the same for
every alert configuration — in particular the configured
`start_time`/`end_time` are not consulted. -/
theorem claim_C9 (st : MonState) (cfg : AlertConfig) (input : TickInput)
    (hp : st.paused = false)
    (hc : ¬ (market_start_time ≤ input.current_time ∧
        input.current_time ≤ market_end_time)) :
    run_iteration st cfg input =
      (day_rollover st input.current_date,
       [Output.status_changed "Market closed. Waiting until 09:00.",
        Output.sleep 60]) ∧
    (run_iteration st cfg input).1.running = st.running ∧
    (∀ cfg' : AlertConfig, run_iteration st cfg' input = run_iteration st cfg input) := by
  have h1 : run_iteration st cfg input =
      (day_rollover st input.current_date,
       [Output.status_changed "Market closed. Waiting until 09:00.",
        Output.sleep 60]) := by
    rw [run_iteration_not_paused st cfg input hp, if_neg hc]
  refine ⟨h1, ?_, ?_⟩
  · rw [h1]
    exact day_rollover_running st input.current_date
  · intro cfg'
    rw [h1, run_iteration_not_paused st cfg' input hp, if_neg hc]

/-- C9 witness: the statement at a concrete 16:40 tick. -/
theorem claim_C9_witness :
    st0.paused = false ∧
    ¬ (market_start_time ≤ inputClosed.current_time ∧
        inputClosed.current_time ≤ market_end_time) ∧
    (run_iteration st0 cfg5 inputClosed =
      (day_rollover st0 inputClosed.current_date,
       [Output.status_changed "Market closed. Waiting until 09:00.",
        Output.sleep 60]) ∧
     (run_iteration st0 cfg5 inputClosed).1.running = st0.running ∧
     (∀ cfg' : AlertConfig,
        run_iteration st0 cfg' inputClosed = run_iteration st0 cfg5 inputClosed)) :=
  ⟨rfl, by norm_num [market_start_time, market_end_time, inputClosed],
   claim_C9 st0 cfg5 inputClosed rfl
     (by norm_num [market_start_time, market_end_time, inputClosed])⟩

lemma tbq_spike_step_start_cases (st : MonState) (cfg : AlertConfig) (t : Bool)
    (now : ℚ) (d : VolumeData) :
    (tbq_spike_step st cfg t now d).2.stability_start_times d.symbol =
      st.stability_start_times d.symbol ∨
    (tbq_spike_step st cfg t now d).2.stability_start_times d.symbol = none := by
  unfold tbq_spike_step update_alert_cooldown setActive popStart
  split_ifs <;> simp

lemma tsq_spike_step_start_cases (st : MonState) (cfg : AlertConfig) (t : Bool)
    (now : ℚ) (d : VolumeData) :
    (tsq_spike_step st cfg t now d).2.stability_start_times d.symbol =
      st.stability_start_times d.symbol ∨
    (tsq_spike_step st cfg t now d).2.stability_start_times d.symbol = none := by
  unfold tsq_spike_step update_alert_cooldown setActive popStart
  split_ifs <;> simp

lemma stability_step_start_no_baseline (st : MonState) (cfg : AlertConfig)
    (now : ℚ) (d : VolumeData) (ta : List String)
    (h : st.last_baseline_data d.symbol = none) :
    (stability_step st cfg now d ta).2.stability_start_times d.symbol =
      st.stability_start_times d.symbol ∨
    (stability_step st cfg now d ta).2.stability_start_times d.symbol = none := by
  have hcs : check_stability st d.symbol d cfg.stability_threshold = false :=
    check_stability_of_no_baseline st d.symbol d cfg.stability_threshold h
  unfold stability_step
  split_ifs <;> simp_all [popStart]

/-- While a symbol has no stability baseline, an alert evaluation never sets
its stability entry time: the stored value is either untouched or cleared. -/
lemma cad_start_no_baseline (st : MonState) (cfg : AlertConfig) (t : Bool)
    (now : ℚ) (d : VolumeData) (h : st.last_baseline_data d.symbol = none) :
    (check_and_trigger_alerts st cfg t now d).state.stability_start_times d.symbol =
      st.stability_start_times d.symbol ∨
    (check_and_trigger_alerts st cfg t now d).state.stability_start_times d.symbol
      = none := by
  unfold check_and_trigger_alerts
  have h2 : (tsq_spike_step (tbq_spike_step st cfg t now d).2 cfg t now
      d).2.last_baseline_data d.symbol = none := by
    simp [h]
  rcases stability_step_start_no_baseline _ cfg now d _ h2 with h3 | h3 <;> rw [h3]
  · rcases tsq_spike_step_start_cases (tbq_spike_step st cfg t now d).2 cfg t now d
      with h4 | h4 <;> rw [h4]
    · exact tbq_spike_step_start_cases st cfg t now d
    · right
      rfl
  · right
    rfl

/-- C10: a stability check with no recorded baseline reports not-stable (so
the stability timer is never newly started while no baseline exists: an alert
evaluation leaves the symbol's entry time untouched or clears it), and a
recorded baseline with a zero quantity on either side has that side's
deviation treated as 0, making the check independent of that side's current
quantity and equivalent, for any nonnegative threshold, to the other side's
condition alone. -/
theorem claim_C10 (st : MonState) (symbol : StockSymbol) (d : VolumeData) (θ : ℚ) :
    (st.last_baseline_data symbol = none →
      check_stability st symbol d θ = false) ∧
    (∀ (cfg : AlertConfig) (t : Bool) (now : ℚ),
      st.last_baseline_data d.symbol = none →
      (check_and_trigger_alerts st cfg t now d).state.stability_start_times d.symbol =
        st.stability_start_times d.symbol ∨
      (check_and_trigger_alerts st cfg t now d).state.stability_start_times d.symbol
        = none) ∧
    (∀ b : VolumeData, st.last_baseline_data symbol = some b → b.tbq = 0 →
      (∀ n : ℕ, check_stability st symbol { d with tbq := n } θ =
        check_stability st symbol d θ) ∧
      (0 ≤ θ → (check_stability st symbol d θ = true ↔
        (if b.tsq ≠ 0 then |(d.tsq : ℚ) - (b.tsq : ℚ)| / (b.tsq : ℚ) * 100 else 0)
          ≤ θ))) ∧
    (∀ b : VolumeData, st.last_baseline_data symbol = some b → b.tsq = 0 →
      (∀ n : ℕ, check_stability st symbol { d with tsq := n } θ =
        check_stability st symbol d θ) ∧
      (0 ≤ θ → (check_stability st symbol d θ = true ↔
        (if b.tbq ≠ 0 then |(d.tbq : ℚ) - (b.tbq : ℚ)| / (b.tbq : ℚ) * 100 else 0)
          ≤ θ))) := by
  refine ⟨check_stability_of_no_baseline st symbol d θ,
    fun cfg t now h => cad_start_no_baseline st cfg t now d h, ?_, ?_⟩
  · intro b hb h0
    constructor
    · intro n
      unfold check_stability
      rw [hb]
      simp [h0]
    · intro hθ
      unfold check_stability
      rw [hb]
      simp [h0, hθ]
  · intro b hb h0
    constructor
    · intro n
      unfold check_stability
      rw [hb]
      simp [h0]
    · intro hθ
      unfold check_stability
      rw [hb]
      simp [h0, hθ]

/-- C10 witness: the zero-buy-side baseline `dB0` and the zero-sell-side
baseline `dB1` at the concrete states `stB` and `stB1`. -/
theorem claim_C10_witness :
    stB.last_baseline_data "X" = some dB0 ∧ dB0.tbq = 0 ∧ (0 : ℚ) ≤ 10 ∧
    check_stability stB "X" { dC with tbq := 777 } 10 = check_stability stB "X" dC 10 ∧
    (check_stability stB "X" dC 10 = true ↔
      (if dB0.tsq ≠ 0 then |(dC.tsq : ℚ) - (dB0.tsq : ℚ)| / (dB0.tsq : ℚ) * 100 else 0)
        ≤ 10) ∧
    stB1.last_baseline_data "X" = some dB1 ∧ dB1.tsq = 0 ∧
    check_stability stB1 "X" { dC with tsq := 555 } 10 = check_stability stB1 "X" dC 10 ∧
    (check_stability stB1 "X" dC 10 = true ↔
      (if dB1.tbq ≠ 0 then |(dC.tbq : ℚ) - (dB1.tbq : ℚ)| / (dB1.tbq : ℚ) * 100 else 0)
        ≤ 10) :=
  ⟨rfl, rfl, by norm_num,
   ((claim_C10 stB "X" dC 10).2.2.1 dB0 rfl rfl).1 777,
   ((claim_C10 stB "X" dC 10).2.2.1 dB0 rfl rfl).2 (by norm_num),
   rfl, rfl,
   ((claim_C10 stB1 "X" dC 10).2.2.2 dB1 rfl rfl).1 555,
   ((claim_C10 stB1 "X" dC 10).2.2.2 dB1 rfl rfl).2 (by norm_num)⟩
